import Mathlib

/-!
Verification development for the ippper IPP-server core.

The definitions below are a shallow embedding of the repository's Rust
sources (src/service/common.rs, src/service/simple.rs, src/utils/mod.rs,
src/model/mod.rs, src/error.rs, src/body_reader.rs, src/handler/http.rs,
src/server.rs) together with the pieces of the external ipp crate that the
sources call (value/attribute/message types, IppRequestResponse
constructors).  Async functions are modelled as pure state-passing
functions; clock reads and the external sink outcome are explicit
parameters; byte streams are inductive values.  Machine integers are
modelled as Nat/Int (no arithmetic in the embedded code ever overflows in
the situations the claims quantify over).
-/

/-- ipp crate, value.rs: the tagged union of IPP attribute values.  Only the
constructors the embedded code manipulates are listed; the remaining RFC 8010
tags are never produced nor inspected by the repository code under
consideration. -/
inductive IppValue where
  | Integer (i : Int)
  | Boolean (b : Bool)
  | Enum (i : Int)
  | Keyword (s : String)
  | NameWithoutLanguage (s : String)
  | NameWithLanguage (language : String) (name : String)
  | TextWithoutLanguage (s : String)
  | Uri (s : String)
  | Charset (s : String)
  | NaturalLanguage (s : String)
  | MimeMediaType (s : String)
  | Resolution (cross_feed : Int) (feed : Int) (units : Int)
  | NoValue
  | Array (xs : List IppValue)

mutual

/-- Structural boolean equality on values (the derive handler does not
support the nested List occurrence). -/
def IppValue.beq : IppValue → IppValue → Bool
  | .Integer a, .Integer b => a == b
  | .Boolean a, .Boolean b => a == b
  | .Enum a, .Enum b => a == b
  | .Keyword a, .Keyword b => a == b
  | .NameWithoutLanguage a, .NameWithoutLanguage b => a == b
  | .NameWithLanguage a c, .NameWithLanguage b d => a == b && c == d
  | .TextWithoutLanguage a, .TextWithoutLanguage b => a == b
  | .Uri a, .Uri b => a == b
  | .Charset a, .Charset b => a == b
  | .NaturalLanguage a, .NaturalLanguage b => a == b
  | .MimeMediaType a, .MimeMediaType b => a == b
  | .Resolution a c e, .Resolution b d f => a == b && c == d && e == f
  | .NoValue, .NoValue => true
  | .Array xs, .Array ys => IppValue.beqList xs ys
  | _, _ => false

def IppValue.beqList : List IppValue → List IppValue → Bool
  | [], [] => true
  | x :: xs, y :: ys => IppValue.beq x y && IppValue.beqList xs ys
  | _, _ => false

end

mutual

theorem IppValue.beq_iff : ∀ a b : IppValue, IppValue.beq a b = true ↔ a = b
  | a, b => by
    cases a <;> cases b <;> simp [IppValue.beq, and_assoc]
    case Array.Array xs ys => exact IppValue.beqList_iff xs ys

theorem IppValue.beqList_iff : ∀ xs ys : List IppValue, IppValue.beqList xs ys = true ↔ xs = ys
  | [], [] => by simp [IppValue.beqList]
  | x :: xs, y :: ys => by
    simp [IppValue.beqList, IppValue.beq_iff x y, IppValue.beqList_iff xs ys]
  | [], _ :: _ => by simp [IppValue.beqList]
  | _ :: _, [] => by simp [IppValue.beqList]

end

instance : DecidableEq IppValue := fun a b =>
  decidable_of_iff _ (IppValue.beq_iff a b)

/-- ipp crate: IppValue::as_keyword. -/
def IppValue.as_keyword : IppValue → Option String
  | .Keyword s => some s
  | _ => none

/-- ipp crate: IppValue::into_keyword().ok(). -/
def IppValue.into_keyword : IppValue → Option String
  | .Keyword s => some s
  | _ => none

/-- ipp crate: IppValue::as_integer / into_integer (Integer variant only). -/
def IppValue.as_integer : IppValue → Option Int
  | .Integer i => some i
  | _ => none

/-- ipp crate: IppValue::into_mime_media_type().ok(). -/
def IppValue.into_mime_media_type : IppValue → Option String
  | .MimeMediaType s => some s
  | _ => none

/-- ipp crate: iterating over a value yields the elements of an Array and the
value itself otherwise (how multi-valued attributes are traversed). -/
def IppValue.iter_values : IppValue → List IppValue
  | .Array xs => xs
  | v => [v]

/-- ipp crate, attribute.rs: a named attribute. -/
structure IppAttribute where
  name : String
  value : IppValue
deriving DecidableEq

/-- ipp crate, model.rs: the delimiter tags of attribute groups
(EndOfAttributes is a wire-format sentinel only and never appears in a
parsed group list). -/
inductive DelimiterTag where
  | OperationAttributes
  | JobAttributes
  | PrinterAttributes
  | UnsupportedAttributes
deriving DecidableEq

/-- ipp crate: an attribute group.  The Rust field is a
HashMap from name to attribute; it is modelled as a list whose entries have
pairwise distinct names, with insertion replacing the entry of equal name. -/
structure IppAttributeGroup where
  tag : DelimiterTag
  attributes : List IppAttribute
deriving DecidableEq

/-- HashMap::insert keyed by attribute name: replace the entry with the same
name if present, otherwise append. -/
def insert_attr (l : List IppAttribute) (a : IppAttribute) : List IppAttribute :=
  if l.any (fun x => x.name = a.name) then
    l.map (fun x => if x.name = a.name then a else x)
  else l ++ [a]

/-- HashMap::get keyed by name. -/
def get_attr (l : List IppAttribute) (name : String) : Option IppAttribute :=
  l.find? (fun x => x.name = name)

/-- HashMap::remove keyed by name: the removed entry and the remaining map. -/
def remove_attr (l : List IppAttribute) (name : String) :
    Option IppAttribute × List IppAttribute :=
  (l.find? (fun x => x.name = name), l.filter (fun x => ¬ x.name = name))

/-- Iterator::extend of (name, attribute) pairs into a group's map. -/
def extend_attrs (l : List IppAttribute) : List IppAttribute → List IppAttribute
  | [] => l
  | a :: rest => extend_attrs (insert_attr l a) rest

/-- ipp crate: the ordered sequence of attribute groups of a message. -/
structure IppAttributes where
  groups : List IppAttributeGroup
deriving DecidableEq

/-- ipp crate: IppAttributes::add - insert into the first group with the
given tag, creating a new group at the end when none exists. -/
def IppAttributes.addGo (tag : DelimiterTag) (a : IppAttribute) :
    List IppAttributeGroup → List IppAttributeGroup
  | [] => [⟨tag, [a]⟩]
  | g :: rest =>
    if g.tag = tag then ⟨g.tag, insert_attr g.attributes a⟩ :: rest
    else g :: IppAttributes.addGo tag a rest

def IppAttributes.add (r : IppAttributes) (tag : DelimiterTag) (a : IppAttribute) :
    IppAttributes :=
  ⟨IppAttributes.addGo tag a r.groups⟩

/-- ipp crate, model.rs: IppVersion is a newtype over the big-endian u16
version word (major byte, minor byte); modelled as the Nat value of that
word. -/
def IppVersion.v1_1 : Nat := 0x0101

def IppVersion.v2_0 : Nat := 0x0200

/-- ipp crate: the message header (version word, operation code or status
code, request id). -/
structure IppHeader where
  version : Nat
  operation_or_status : Nat
  request_id : Nat
deriving DecidableEq

/-- ipp crate, payload.rs: a single-reader byte stream.  The repository never
inspects payload bytes; it either forwards the stream or wraps it in a
streaming gzip decoder (utils::decommpress_payload), so the payload is
modelled as the raw source plus the decoder wrapper. -/
inductive IppPayload where
  | bytes (bs : List Nat)
  | gzip_decoder (inner : IppPayload)
deriving DecidableEq

def IppPayload.empty : IppPayload := .bytes []

/-- ipp crate, model.rs: the status codes produced by the repository code. -/
inductive StatusCode where
  | SuccessfulOk
  | ClientErrorNotFound
  | ClientErrorDocumentFormatNotSupported
  | ClientErrorCompressionNotSupported
  | ServerErrorInternalError
  | ServerErrorOperationNotSupported
  | ServerErrorVersionNotSupported
deriving DecidableEq

/-- The wire encoding of each status code (RFC 8011). -/
def StatusCode.toU16 : StatusCode → Nat
  | .SuccessfulOk => 0x0000
  | .ClientErrorNotFound => 0x0406
  | .ClientErrorDocumentFormatNotSupported => 0x040A
  | .ClientErrorCompressionNotSupported => 0x040F
  | .ServerErrorInternalError => 0x0500
  | .ServerErrorOperationNotSupported => 0x0501
  | .ServerErrorVersionNotSupported => 0x0503

/-- ipp crate: Display output of a status code, used by the sources as the
human-readable message accompanying an error status
(StatusCode::to_string()).  The claims under verification never depend on
the exact wording, only on which status the message was derived from, so
the RFC keyword is used as the rendering. -/
def StatusCode.toText : StatusCode → String
  | .SuccessfulOk => "successful-ok"
  | .ClientErrorNotFound => "client-error-not-found"
  | .ClientErrorDocumentFormatNotSupported => "client-error-document-format-not-supported"
  | .ClientErrorCompressionNotSupported => "client-error-compression-not-supported"
  | .ServerErrorInternalError => "server-error-internal-error"
  | .ServerErrorOperationNotSupported => "server-error-operation-not-supported"
  | .ServerErrorVersionNotSupported => "server-error-version-not-supported"

/-- src/error.rs: IppError is a status code plus a message; anyhow::Error in
the dispatcher is either such an IppError (downcast succeeds) or any other
error carrying only its Display string. -/
inductive AnyError where
  | ipp (code : StatusCode) (msg : String)
  | other (msg : String)
deriving DecidableEq

/-- Display of the underlying error (IppError renders as code and quoted
message per its derive; other errors render as their message).  Claims only
propagate this string, never inspect it. -/
def AnyError.display : AnyError → String
  | .ipp code msg => code.toText ++ " " ++ msg
  | .other msg => msg

/-- The status code and message that build_error_response extracts: a
successful downcast to IppError keeps its code and msg, anything else
becomes server-error-internal-error with the Display string
(src/service/common.rs lines 162-168). -/
def AnyError.code : AnyError → StatusCode
  | .ipp code _ => code
  | .other _ => .ServerErrorInternalError

def AnyError.msg : AnyError → String
  | .ipp _ msg => msg
  | .other msg => msg

/-- ipp crate, request.rs: a request/response message. -/
structure IppRequestResponse where
  header : IppHeader
  attributes : IppAttributes
  payload : IppPayload
deriving DecidableEq

/-- ipp crate: IppRequestResponse::new_response builds a response header with
the given version word, status and request id, an empty payload, and an
operation-attributes group already holding attributes-charset = utf-8 and
attributes-natural-language = en (the crate inserts these two in every
freshly constructed message). -/
def IppRequestResponse.new_response (version : Nat) (status : StatusCode)
    (request_id : Nat) : IppRequestResponse :=
  let r : IppRequestResponse :=
    ⟨⟨version, status.toU16, request_id⟩, ⟨[]⟩, IppPayload.empty⟩
  let r := { r with attributes :=
    (r.attributes.add .OperationAttributes ⟨"attributes-charset", .Charset "utf-8"⟩) }
  { r with attributes :=
    (r.attributes.add .OperationAttributes
      ⟨"attributes-natural-language", .NaturalLanguage "en"⟩) }

/-- ipp crate, model.rs: the operation codes the dispatcher names
explicitly.  The crate's Operation::from_u16 recognises further codes (for
example the CUPS extensions); those fall into the dispatcher's catch-all arm
and yield exactly the same operation-not-supported outcome as an
unrecognised code, so they are modelled as none here. -/
inductive Operation where
  | PrintJob
  | PrintUri
  | ValidateJob
  | CreateJob
  | SendDocument
  | SendUri
  | CancelJob
  | GetJobAttributes
  | GetJobs
  | GetPrinterAttributes
  | HoldJob
  | ReleaseJob
  | RestartJob
  | PausePrinter
  | ResumePrinter
  | PurgeJobs
deriving DecidableEq

def Operation.from_u16 : Nat → Option Operation
  | 0x0002 => some .PrintJob
  | 0x0003 => some .PrintUri
  | 0x0004 => some .ValidateJob
  | 0x0005 => some .CreateJob
  | 0x0006 => some .SendDocument
  | 0x0007 => some .SendUri
  | 0x0008 => some .CancelJob
  | 0x0009 => some .GetJobAttributes
  | 0x000A => some .GetJobs
  | 0x000B => some .GetPrinterAttributes
  | 0x000C => some .HoldJob
  | 0x000D => some .ReleaseJob
  | 0x000E => some .RestartJob
  | 0x0010 => some .PausePrinter
  | 0x0011 => some .ResumePrinter
  | 0x0012 => some .PurgeJobs
  | _ => none

/-- RFC 8011 operation codes as i32, for operations-supported. -/
def Operation.code : Operation → Int
  | .PrintJob => 0x0002
  | .PrintUri => 0x0003
  | .ValidateJob => 0x0004
  | .CreateJob => 0x0005
  | .SendDocument => 0x0006
  | .SendUri => 0x0007
  | .CancelJob => 0x0008
  | .GetJobAttributes => 0x0009
  | .GetJobs => 0x000A
  | .GetPrinterAttributes => 0x000B
  | .HoldJob => 0x000C
  | .ReleaseJob => 0x000D
  | .RestartJob => 0x000E
  | .PausePrinter => 0x0010
  | .ResumePrinter => 0x0011
  | .PurgeJobs => 0x0012

/-- ipp crate, model.rs: job states with their RFC 8011 enum values. -/
inductive JobState where
  | Pending
  | PendingHeld
  | Processing
  | ProcessingStopped
  | Canceled
  | Aborted
  | Completed
deriving DecidableEq

def JobState.toI32 : JobState → Int
  | .Pending => 3
  | .PendingHeld => 4
  | .Processing => 5
  | .ProcessingStopped => 6
  | .Canceled => 7
  | .Aborted => 8
  | .Completed => 9

/-- ipp crate, model.rs: PrinterState::Idle = 3. -/
def PrinterState.Idle : Int := 3

/-- Modelled from the spec: the enum crate::model::WhichJob and its
From<JobState> conversion are referenced by src/service/simple.rs (get_jobs)
but their definition file is not part of the provided sources.  Spec 4.6.4:
which-jobs mapping sends Completed, Canceled and Aborted to completed and
anything else to not-completed. -/
inductive WhichJob where
  | Completed
  | NotCompleted
deriving DecidableEq

/-- Modelled from the spec: WhichJob::from(JobState), per the spec 4.6.4
mapping. -/
def WhichJob.from_state : JobState → WhichJob
  | .Completed => .Completed
  | .Canceled => .Completed
  | .Aborted => .Completed
  | _ => .NotCompleted

/-- src/utils/mod.rs get_ipp_attribute: the value of the named attribute in
the first group with the given tag that contains it. -/
def get_ipp_attribute (r : IppAttributes) (tag : DelimiterTag) (name : String) :
    Option IppValue :=
  r.groups.findSome? (fun g =>
    if g.tag = tag then (get_attr g.attributes name).map (fun a => a.value) else none)

/-- src/utils/mod.rs take_ipp_attribute: remove the named attribute from the
first group with the given tag that contains it, returning its value and the
updated attribute sequence. -/
def take_ipp_attribute_go (tag : DelimiterTag) (name : String) :
    List IppAttributeGroup → Option IppValue × List IppAttributeGroup
  | [] => (none, [])
  | g :: rest =>
    if g.tag = tag then
      match remove_attr g.attributes name with
      | (some a, attrs) => (some a.value, ⟨g.tag, attrs⟩ :: rest)
      | (none, _) =>
        ((take_ipp_attribute_go tag name rest).1, g :: (take_ipp_attribute_go tag name rest).2)
    else
      ((take_ipp_attribute_go tag name rest).1, g :: (take_ipp_attribute_go tag name rest).2)

def take_ipp_attribute (r : IppAttributes) (tag : DelimiterTag) (name : String) :
    Option IppValue × IppAttributes :=
  let t := take_ipp_attribute_go tag name r.groups
  (t.1, ⟨t.2⟩)

/-- src/utils/mod.rs decommpress_payload (source spelling kept): absent or
none compression passes the payload through, gzip wraps it in a streaming
gzip decoder, anything else fails with client-error-compression-not-
supported. -/
def decommpress_payload (payload : IppPayload) (compression : Option String) :
    Except AnyError IppPayload :=
  match compression with
  | none => .ok payload
  | some s =>
    if s = "none" then .ok payload
    else if s = "gzip" then .ok (.gzip_decoder payload)
    else .error (.ipp .ClientErrorCompressionNotSupported
      (StatusCode.toText .ClientErrorCompressionNotSupported))

/-- src/utils/mod.rs get_requested_attributes: the keyword values of the
requested-attributes operation attribute, or the singleton all when the
attribute is absent.  The Rust HashSet is modelled as the list of collected
keywords; only membership is ever consumed. -/
def get_requested_attributes (r : IppAttributes) : List String :=
  match get_ipp_attribute r .OperationAttributes "requested-attributes" with
  | some attr => attr.iter_values.filterMap IppValue.as_keyword
  | none => ["all"]

/-- src/utils/mod.rs take_requesting_user_name: the requesting-user-name
operation attribute as either name form, defaulting to anonymous. -/
def take_requesting_user_name (r : IppAttributes) : String × IppAttributes :=
  let t := take_ipp_attribute r .OperationAttributes "requesting-user-name"
  let v := t.1
  let r' := t.2
  let name := match v with
    | some (.NameWithoutLanguage name) => some name
    | some (.NameWithLanguage _ name) => some name
    | _ => none
  (name.getD "anonymous", r')

/-- src/model/mod.rs: PageOrientation with its RFC 8011 enum values. -/
inductive PageOrientation where
  | Portrait
  | Landscape
  | ReversePortrait
  | ReverseLandscape
deriving DecidableEq

def PageOrientation.toI32 : PageOrientation → Int
  | .Portrait => 3
  | .Landscape => 4
  | .ReversePortrait => 5
  | .ReverseLandscape => 6

/-- src/model/mod.rs: TryFrom of i32. -/
def PageOrientation.try_from_i32 (v : Int) : Option PageOrientation :=
  if v = 3 then some .Portrait
  else if v = 4 then some .Landscape
  else if v = 5 then some .ReversePortrait
  else if v = 6 then some .ReverseLandscape
  else none

/-- src/model/mod.rs: TryFrom of IppValue (Enum variant only). -/
def PageOrientation.try_from (v : IppValue) : Option PageOrientation :=
  match v with
  | .Enum i => PageOrientation.try_from_i32 i
  | _ => none

def PageOrientation.toIppValue (v : PageOrientation) : IppValue := .Enum v.toI32

/-- src/model/mod.rs: Resolution. -/
structure Resolution where
  cross_feed : Int
  feed : Int
  units : Int
deriving DecidableEq

/-- src/model/mod.rs: TryFrom of IppValue (Resolution variant only). -/
def Resolution.try_from (v : IppValue) : Option Resolution :=
  match v with
  | .Resolution cross_feed feed units => some ⟨cross_feed, feed, units⟩
  | _ => none

def Resolution.toIppValue (r : Resolution) : IppValue :=
  .Resolution r.cross_feed r.feed r.units

/-- src/service/simple.rs: the immutable printer configuration.  The uuid
field stores the lowercase hyphenated rendering of the Uuid so that the URN
form is its prefix with urn:uuid:. -/
structure PrinterInfo where
  name : String
  info : Option String
  make_and_model : Option String
  uuid : Option String
  document_format_supported : List String
  document_format_default : String
  document_format_preferred : Option String
  media_supported : List String
  media_default : String
  orientation_supported : List PageOrientation
  orientation_default : Option PageOrientation
  sides_supported : List String
  sides_default : String
  print_color_mode_supported : List String
  print_color_mode_default : String
  printer_resolution_supported : List Resolution
  printer_resolution_default : Option Resolution
  pdf_versions_supported : List String
  urf_supported : List String
  pwg_raster_document_type_supported : List String
  pwg_raster_document_resolution_supported : List Resolution
  pwg_raster_document_sheet_back : Option String
deriving DecidableEq

/-- The builder defaults of PrinterInfo (src/service/simple.rs, the builder
attribute on each field). -/
def PrinterInfo.defaults : PrinterInfo where
  name := "IppServer"
  info := some "IppServer by ippper"
  make_and_model := some "IppServer by ippper"
  uuid := none
  document_format_supported := ["application/pdf"]
  document_format_default := "application/pdf"
  document_format_preferred := some "application/pdf"
  media_supported := ["iso_a4_210x297mm"]
  media_default := "iso_a4_210x297mm"
  orientation_supported := [.Portrait]
  orientation_default := none
  sides_supported := ["one-sided"]
  sides_default := "one-sided"
  print_color_mode_supported := ["monochrome", "color"]
  print_color_mode_default := "monochrome"
  printer_resolution_supported := []
  printer_resolution_default := none
  pdf_versions_supported := ["adobe-1.2", "adobe-1.3", "adobe-1.4", "adobe-1.5",
    "adobe-1.6", "adobe-1.7", "iso-19005-1_2005", "iso-32000-1_2008", "pwg-5102.3"]
  urf_supported := []
  pwg_raster_document_type_supported := []
  pwg_raster_document_resolution_supported := []
  pwg_raster_document_sheet_back := none

/-- src/service/simple.rs: the job-template options resolved for a job. -/
structure SimpleIppJobAttributes where
  originating_user_name : String
  media : String
  orientation : Option PageOrientation
  sides : String
  print_color_mode : String
  printer_resolution : Option Resolution
deriving DecidableEq

/-- src/service/simple.rs SimpleIppJobAttributes::take_ipp_attributes:
remove each job-template attribute from the request's job-attributes group,
coerce it, and fall back to the printer default on absence or wrong type. -/
def SimpleIppJobAttributes.take_ipp_attributes (info : PrinterInfo)
    (originating_user_name : String) (attributes : IppAttributes) :
    SimpleIppJobAttributes × IppAttributes :=
  let t1 := take_ipp_attribute attributes .JobAttributes "media"
  let media := (t1.1.bind IppValue.into_keyword).getD info.media_default
  let t2 := take_ipp_attribute t1.2 .JobAttributes "orientation-requested"
  let orientation := (t2.1.bind PageOrientation.try_from).orElse (fun _ => info.orientation_default)
  let t3 := take_ipp_attribute t2.2 .JobAttributes "sides"
  let sides := (t3.1.bind IppValue.into_keyword).getD info.sides_default
  let t4 := take_ipp_attribute t3.2 .JobAttributes "print-color-mode"
  let print_color_mode := (t4.1.bind IppValue.into_keyword).getD info.print_color_mode_default
  let t5 := take_ipp_attribute t4.2 .JobAttributes "printer-resolution"
  let printer_resolution := (t5.1.bind Resolution.try_from).orElse (fun _ => info.printer_resolution_default)
  let attributes := t5.2
  (⟨originating_user_name, media, orientation, sides, print_color_mode, printer_resolution⟩,
    attributes)

/-- src/service/simple.rs: per-job state.  Durations since server start are
modelled in whole seconds as Nat. -/
structure JobInfo where
  id : Int
  state : JobState
  state_message : String
  state_reasons : IppValue
  attributes : SimpleIppJobAttributes
  created_at : Nat
  processing_at : Option Nat
  completed_at : Option Nat
deriving DecidableEq

/-- src/service/simple.rs: the mutable state of a SimpleIppService.  The
moka cache is modelled as the association list of its entries in insertion
order (capacity and TTL eviction never fire in the scenarios the claims
quantify over); the AtomicI32 job-id counter is an Int. -/
structure SimpleIppService where
  job_id : Int
  job_snapshot : List (Int × JobInfo)
  host : String
  basepath : String
  info : PrinterInfo
deriving DecidableEq

/-- src/service/simple.rs SimpleIppService::new. -/
def SimpleIppService.new (info : PrinterInfo) : SimpleIppService :=
  ⟨1000, [], "defaulthost:631", "/", info⟩

/-- moka Cache::get by key. -/
def cache_get (jobs : List (Int × JobInfo)) (id : Int) : Option JobInfo :=
  (jobs.find? (fun p => p.1 = id)).map (fun p => p.2)

/-- Writing through the per-entry RwLock: replace the entry with this id. -/
def cache_update (jobs : List (Int × JobInfo)) (id : Int) (j : JobInfo) :
    List (Int × JobInfo) :=
  jobs.map (fun p => if p.1 = id then (p.1, j) else p)

/-- Rust str::trim_start_matches for a single char. -/
def trim_start_char (s : String) (c : Char) : String :=
  ⟨s.toList.dropWhile (fun x => x = c)⟩

/-- Rust str::trim_end_matches for a single char. -/
def trim_end_char (s : String) (c : Char) : String :=
  ⟨(s.toList.reverse.dropWhile (fun x => x = c)).reverse⟩

/-- http crate request::Parts, reduced to the fields the service reads: the
scheme of the request URI (head.uri.scheme as a string, absent when the
request target has none). -/
structure ReqParts where
  scheme : Option String
deriving DecidableEq

/-- src/service/simple.rs SimpleIppService::make_url. -/
def SimpleIppService.make_url (svc : SimpleIppService) (scheme : Option String)
    (path : String) : String :=
  let basepath := trim_end_char (trim_start_char svc.basepath '/') '/'
  let slash_before_basepath := if basepath.isEmpty then "" else "/"
  let slash_before_path := if path.startsWith "/" then "" else "/"
  let scheme := scheme.getD "ipp"
  scheme ++ "://" ++ svc.host ++ slash_before_basepath ++ basepath ++
    slash_before_path ++ path

/-- src/service/simple.rs add_basic_attributes: add attributes-charset and
attributes-natural-language to the response's operation attributes. -/
def add_basic_attributes (resp : IppRequestResponse) : IppRequestResponse :=
  let resp := { resp with attributes :=
    (resp.attributes.add .OperationAttributes ⟨"attributes-charset", .Charset "utf-8"⟩) }
  { resp with attributes :=
    (resp.attributes.add .OperationAttributes
      ⟨"attributes-natural-language", .NaturalLanguage "en"⟩) }

/-- One conditional emission of the add_if_requested macro: push the
attribute when its guard holds. -/
def emit_if (c : Bool) (l : List IppAttribute) : List IppAttribute :=
  if c then l else []

/-- One conditional emission of the optional_add_if_requested macro: push
the attribute when requested and the optional value is present. -/
def emit_opt (c : Bool) (name : String) (v : Option IppValue) : List IppAttribute :=
  if c then
    match v with
    | some v => [⟨name, v⟩]
    | none => []
  else []

/-- src/service/simple.rs SimpleIppService::printer_attributes: the sequence
of conditional pushes of printer attributes, in source order.  The Vec of
pushes is modelled as the concatenation of the emission of each push;
uptime_secs stands for self.uptime().as_secs(). -/
def SimpleIppService.printer_attributes (svc : SimpleIppService) (head : ReqParts)
    (uptime_secs : Int) (requested : List String) : List IppAttribute :=
  let requested_all := requested.contains "all"
  let is_req : String → Bool := fun name => requested_all || requested.contains name
  emit_if (is_req "printer-uri-supported")
    [⟨"printer-uri-supported", .Uri (svc.make_url head.scheme "/")⟩] ++
  emit_if (is_req "uri-authentication-supported")
    [⟨"uri-authentication-supported", .Keyword "requesting-user-name"⟩] ++
  emit_if (is_req "uri-security-supported")
    [⟨"uri-security-supported", .Keyword
      (match head.scheme with
        | some s => if s = "ipps" then "tls" else if s = "https" then "tls" else "none"
        | none => "none")⟩] ++
  emit_if (is_req "printer-name")
    [⟨"printer-name", .NameWithoutLanguage svc.info.name⟩] ++
  emit_if (is_req "printer-state")
    [⟨"printer-state", .Enum PrinterState.Idle⟩] ++
  emit_if (is_req "printer-state-reasons")
    [⟨"printer-state-reasons", .Keyword "none"⟩] ++
  emit_if (is_req "ipp-versions-supported")
    [⟨"ipp-versions-supported", .Array [.Keyword "1.0", .Keyword "1.1", .Keyword "2.0"]⟩] ++
  emit_if (is_req "operations-supported")
    [⟨"operations-supported", .Array [
      .Enum Operation.PrintJob.code,
      .Enum Operation.ValidateJob.code,
      .Enum Operation.CreateJob.code,
      .Enum Operation.SendDocument.code,
      .Enum Operation.CancelJob.code,
      .Enum Operation.GetJobAttributes.code,
      .Enum Operation.GetJobs.code,
      .Enum Operation.GetPrinterAttributes.code]⟩] ++
  emit_if (is_req "multiple-document-jobs-supported")
    [⟨"multiple-document-jobs-supported", .Boolean false⟩] ++
  emit_if (is_req "charset-configured")
    [⟨"charset-configured", .Charset "utf-8"⟩] ++
  emit_if (is_req "charset-supported")
    [⟨"charset-supported", .Charset "utf-8"⟩] ++
  emit_if (is_req "natural-language-configured")
    [⟨"natural-language-configured", .NaturalLanguage "en"⟩] ++
  emit_if (is_req "generated-natural-language-supported")
    [⟨"generated-natural-language-supported", .NaturalLanguage "en"⟩] ++
  emit_if (is_req "document-format-default")
    [⟨"document-format-default", .MimeMediaType svc.info.document_format_default⟩] ++
  emit_if (is_req "document-format-supported")
    [⟨"document-format-supported",
      .Array (svc.info.document_format_supported.map IppValue.MimeMediaType)⟩] ++
  emit_if (is_req "printer-is-accepting-jobs")
    [⟨"printer-is-accepting-jobs", .Boolean true⟩] ++
  emit_if (is_req "pdl-override-supported")
    [⟨"pdl-override-supported", .Keyword "attempted"⟩] ++
  emit_if (is_req "printer-up-time")
    [⟨"printer-up-time", .Integer uptime_secs⟩] ++
  emit_if (is_req "compression-supported")
    [⟨"compression-supported", .Array [.Keyword "none", .Keyword "gzip"]⟩] ++
  emit_if (is_req "media-default")
    [⟨"media-default", .Keyword svc.info.media_default⟩] ++
  emit_if (is_req "media-supported")
    [⟨"media-supported", .Array (svc.info.media_supported.map IppValue.Keyword)⟩] ++
  emit_if (is_req "orientation-requested-default")
    [⟨"orientation-requested-default",
      (svc.info.orientation_default.map PageOrientation.toIppValue).getD .NoValue⟩] ++
  emit_if (is_req "orientation-requested-supported")
    [⟨"orientation-requested-supported",
      .Array (svc.info.orientation_supported.map PageOrientation.toIppValue)⟩] ++
  emit_if (is_req "sides-default")
    [⟨"sides-default", .Keyword svc.info.sides_default⟩] ++
  emit_if (is_req "sides-supported")
    [⟨"sides-supported", .Array (svc.info.sides_supported.map IppValue.Keyword)⟩] ++
  emit_if (is_req "print-color-mode-default")
    [⟨"print-color-mode-default", .Keyword svc.info.print_color_mode_default⟩] ++
  emit_if (is_req "print-color-mode-supported")
    [⟨"print-color-mode-supported",
      .Array (svc.info.print_color_mode_supported.map IppValue.Keyword)⟩] ++
  emit_opt (is_req "document-format-preferred") "document-format-preferred"
    (svc.info.document_format_preferred.map IppValue.MimeMediaType) ++
  (if ¬ svc.info.printer_resolution_supported.isEmpty then
    emit_if (is_req "printer-resolution-supported")
      [⟨"printer-resolution-supported",
        .Array (svc.info.printer_resolution_supported.map Resolution.toIppValue)⟩]
  else []) ++
  emit_opt (is_req "printer-resolution-default") "printer-resolution-default"
    (svc.info.printer_resolution_default.map Resolution.toIppValue) ++
  (if ¬ svc.info.pdf_versions_supported.isEmpty then
    emit_if (is_req "pdf-versions-supported")
      [⟨"pdf-versions-supported",
        .Array (svc.info.pdf_versions_supported.map IppValue.Keyword)⟩]
  else []) ++
  (if ¬ svc.info.urf_supported.isEmpty then
    emit_if (is_req "urf-supported")
      [⟨"urf-supported", .Array (svc.info.urf_supported.map IppValue.Keyword)⟩]
  else []) ++
  (if ¬ svc.info.pwg_raster_document_type_supported.isEmpty then
    emit_if (is_req "pwg-raster-document-type-supported")
      [⟨"pwg-raster-document-type-supported",
        .Array (svc.info.pwg_raster_document_type_supported.map IppValue.Keyword)⟩]
  else []) ++
  (if ¬ svc.info.pwg_raster_document_resolution_supported.isEmpty then
    emit_if (is_req "pwg-raster-document-resolution-supported")
      [⟨"pwg-raster-document-resolution-supported",
        .Array (svc.info.pwg_raster_document_resolution_supported.map Resolution.toIppValue)⟩]
  else []) ++
  emit_opt (is_req "pwg-raster-document-sheet-back") "pwg-raster-document-sheet-back"
    (svc.info.pwg_raster_document_sheet_back.map IppValue.Keyword) ++
  emit_if (is_req "job-creation-attributes-supported")
    [⟨"job-creation-attributes-supported", .Array
      ([.Keyword "job-name", .Keyword "media", .Keyword "orientation-requested",
        .Keyword "print-color-mode", .Keyword "sides"] ++
       (if ¬ svc.info.printer_resolution_supported.isEmpty then
         [IppValue.Keyword "printer-resolution"] else []))⟩] ++
  emit_opt (is_req "printer-info") "printer-info"
    (svc.info.info.map IppValue.TextWithoutLanguage) ++
  emit_opt (is_req "printer-make-and-model") "printer-make-and-model"
    (svc.info.make_and_model.map IppValue.TextWithoutLanguage) ++
  emit_opt (is_req "printer-uuid") "printer-uuid"
    (svc.info.uuid.map (fun u => IppValue.Uri ("urn:uuid:" ++ u)))

/-- src/service/simple.rs lite_job_attributes_for: the confirmation
attribute set of job-creating operations. -/
def SimpleIppService.lite_job_attributes_for (svc : SimpleIppService)
    (head : ReqParts) (job : JobInfo) : List IppAttribute :=
  [⟨"job-uri", .Uri (svc.make_url head.scheme ("job/" ++ toString job.id))⟩,
   ⟨"job-id", .Integer job.id⟩,
   ⟨"job-state", .Enum job.state.toI32⟩,
   ⟨"job-state-message", .TextWithoutLanguage job.state_message⟩,
   ⟨"job-state-reasons", job.state_reasons⟩]

/-- src/service/simple.rs job_attributes_for: the filtered full job
attribute set; the description grouping covers the lite set plus timing
attributes, the template grouping covers the job-template options. -/
def SimpleIppService.job_attributes_for (svc : SimpleIppService) (head : ReqParts)
    (uptime_secs : Int) (job : JobInfo) (requested : List String) : List IppAttribute :=
  let requested_all := requested.contains "all"
  let requested_job_description := requested_all || requested.contains "job-description"
  let requested_job_template := requested_all || requested.contains "job-template"
  let is_req_d : String → Bool := fun name =>
    requested_job_description || requested.contains name
  let is_req_t : String → Bool := fun name =>
    requested_job_template || requested.contains name
  emit_if (is_req_d "job-uri")
    [⟨"job-uri", .Uri (svc.make_url head.scheme ("job/" ++ toString job.id))⟩] ++
  emit_if (is_req_d "job-id") [⟨"job-id", .Integer job.id⟩] ++
  emit_if (is_req_d "job-state") [⟨"job-state", .Enum job.state.toI32⟩] ++
  emit_if (is_req_d "job-state-message")
    [⟨"job-state-message", .TextWithoutLanguage job.state_message⟩] ++
  emit_if (is_req_d "job-state-reasons") [⟨"job-state-reasons", job.state_reasons⟩] ++
  emit_if (is_req_d "job-printer-uri")
    [⟨"job-printer-uri", .Uri (svc.make_url head.scheme "/")⟩] ++
  emit_if (is_req_d "job-name")
    [⟨"job-name", .NameWithoutLanguage ("Job #" ++ toString job.id)⟩] ++
  emit_if (is_req_d "job-originating-user-name")
    [⟨"job-originating-user-name",
      .NameWithoutLanguage job.attributes.originating_user_name⟩] ++
  emit_if (is_req_d "time-at-creation")
    [⟨"time-at-creation", .Integer (Int.ofNat job.created_at)⟩] ++
  emit_if (is_req_d "time-at-processing")
    [⟨"time-at-processing",
      (job.processing_at.map (fun x => IppValue.Integer (Int.ofNat x))).getD .NoValue⟩] ++
  emit_if (is_req_d "time-at-completed")
    [⟨"time-at-completed",
      (job.completed_at.map (fun x => IppValue.Integer (Int.ofNat x))).getD .NoValue⟩] ++
  emit_if (is_req_d "job-printer-up-time")
    [⟨"job-printer-up-time", .Integer uptime_secs⟩] ++
  emit_if (is_req_t "media") [⟨"media", .Keyword job.attributes.media⟩] ++
  emit_if (is_req_t "orientation-requested")
    [⟨"orientation-requested",
      (job.attributes.orientation.map PageOrientation.toIppValue).getD .NoValue⟩] ++
  emit_if (is_req_t "sides") [⟨"sides", .Keyword job.attributes.sides⟩] ++
  emit_if (is_req_t "print-color-mode")
    [⟨"print-color-mode", .Keyword job.attributes.print_color_mode⟩] ++
  emit_opt (is_req_t "printer-resolution") "printer-resolution"
    (job.attributes.printer_resolution.map Resolution.toIppValue)

/-- src/service/simple.rs SimpleIppDocument: what the sink receives. -/
structure SimpleIppDocument where
  format : Option String
  job_attributes : SimpleIppJobAttributes
  payload : IppPayload
deriving DecidableEq

/-- The environment of one request execution: the outcome the external
sink's handle_document future resolves to, and the uptime clock samples (t0
for the first uptime() call of the operation, t1 for the one after the sink
returns). -/
structure ExecEnv where
  sink_result : Except AnyError Unit
  t0 : Nat
  t1 : Nat

/-- Outcome of one trait-method invocation: the IppResult, the service state
afterwards, and the documents handed to the sink (in order). -/
structure OpOutcome where
  result : Except AnyError IppRequestResponse
  svc : SimpleIppService
  sink_calls : List SimpleIppDocument

/-- src/service/simple.rs SimpleIppService::find_job: the job-id operation
attribute as an integer, looked up in the cache; anything else is
client-error-not-found.  Returns the id together with the entry. -/
def SimpleIppService.find_job (svc : SimpleIppService) (r : IppAttributes) :
    Except AnyError (Int × JobInfo) :=
  let job_id := (get_ipp_attribute r .OperationAttributes "job-id").bind IppValue.as_integer
  let job := match job_id with
    | some id => (cache_get svc.job_snapshot id).map (fun j => (id, j))
    | none => none
  match job with
  | some j => .ok j
  | none => .error (.ipp .ClientErrorNotFound (StatusCode.toText .ClientErrorNotFound))

/-- src/service/simple.rs SimpleIppService::take_document_format: take the
document-format operation attribute as a mime media type; when present it
must be in document_format_supported, else
client-error-document-format-not-supported. -/
def SimpleIppService.take_document_format (svc : SimpleIppService)
    (r : IppAttributes) : Except AnyError (Option String) × IppAttributes :=
  let t := take_ipp_attribute r .OperationAttributes "document-format"
  let r' := t.2
  let format := t.1.bind IppValue.into_mime_media_type
  match format with
  | some x =>
    if svc.info.document_format_supported.contains x then (.ok (some x), r')
    else (.error (.ipp .ClientErrorDocumentFormatNotSupported
      (StatusCode.toText .ClientErrorDocumentFormatNotSupported)), r')
  | none => (.ok none, r')

/-- Pushing a fresh attribute group holding the given attributes onto the
response's group list (the group.attributes_mut().extend + groups_mut().push
pattern of simple.rs). -/
def push_group (resp : IppRequestResponse) (tag : DelimiterTag)
    (attrs : List IppAttribute) : IppRequestResponse :=
  { resp with attributes := ⟨resp.attributes.groups ++ [⟨tag, extend_attrs [] attrs⟩]⟩ }

/-- src/service/simple.rs: the JobInfo literal allocated by print_job (state
Processing, processing_at equal to created_at). -/
def print_job_initial_job (id : Int) (job_attributes : SimpleIppJobAttributes)
    (created_at : Nat) : JobInfo :=
  ⟨id, .Processing, "Processing", .Keyword "none", job_attributes,
    created_at, some created_at, none⟩

/-- src/service/simple.rs: the job mutation after handle_document returns:
Aborted with the error's Display appended on failure, Completed on success;
completed_at is set to the current uptime either way. -/
def finish_job (job : JobInfo) (sink_result : Except AnyError Unit) (t1 : Nat) :
    JobInfo :=
  match sink_result with
  | .error e =>
    { job with state := .Aborted, state_message := "Aborted: " ++ e.display, completed_at := some t1 }
  | .ok _ =>
    { job with state := .Completed, state_message := "Completed", completed_at := some t1 }

/-- src/service/common.rs build_error_response: downcast the error (kept by
AnyError.code / AnyError.msg), build a response with that status and the
request id, and add status-message to its operation attributes. -/
def build_error_response (version : Nat) (req_id : Nat) (error : AnyError) :
    IppRequestResponse :=
  let resp := IppRequestResponse.new_response version error.code req_id
  { resp with attributes :=
    (resp.attributes.add .OperationAttributes
      ⟨"status-message", .TextWithoutLanguage error.msg⟩) }

/-- src/service/simple.rs print_job. -/
def SimpleIppService.print_job (svc : SimpleIppService) (env : ExecEnv)
    (head : ReqParts) (req : IppRequestResponse) : OpOutcome :=
  let attributes := req.attributes
  let req_id := req.header.request_id
  let version := req.header.version
  let tu := take_requesting_user_name attributes
  let requesting_user_name := tu.1
  let tj := SimpleIppJobAttributes.take_ipp_attributes svc.info requesting_user_name tu.2
  let job_attributes := tj.1
  let attributes := tj.2
  let created_at := env.t0
  let id := svc.job_id
  let job0 := print_job_initial_job id job_attributes created_at
  let svc := { svc with job_id := id + 1, job_snapshot := svc.job_snapshot ++ [(id, job0)] }
  let tf := svc.take_document_format attributes
  match tf.1 with
  | .error e => ⟨.error e, svc, []⟩
  | .ok format =>
    let attributes := tf.2
    let compression :=
      (take_ipp_attribute attributes .OperationAttributes "compression").1.bind IppValue.into_keyword
    match decommpress_payload req.payload compression with
    | .error e => ⟨.error e, svc, []⟩
    | .ok payload =>
      let doc : SimpleIppDocument := ⟨format, job_attributes, payload⟩
      let job1 := finish_job job0 env.sink_result env.t1
      let svc := { svc with job_snapshot := cache_update svc.job_snapshot id job1 }
      let resp := match env.sink_result with
        | .error e => build_error_response version req_id e
        | .ok _ => IppRequestResponse.new_response version .SuccessfulOk req_id
      let resp := add_basic_attributes resp
      let resp := push_group resp .JobAttributes (svc.lite_job_attributes_for head job1)
      ⟨.ok resp, svc, [doc]⟩

/-- src/service/simple.rs create_job (note the source also sets
processing_at to created_at here, although the state is Pending). -/
def SimpleIppService.create_job (svc : SimpleIppService) (env : ExecEnv)
    (head : ReqParts) (req : IppRequestResponse) : OpOutcome :=
  let attributes := req.attributes
  let req_id := req.header.request_id
  let version := req.header.version
  let tu := take_requesting_user_name attributes
  let requesting_user_name := tu.1
  let tj := SimpleIppJobAttributes.take_ipp_attributes svc.info requesting_user_name tu.2
  let job_attributes := tj.1
  let created_at := env.t0
  let id := svc.job_id
  let job0 : JobInfo := ⟨id, .Pending, "Pending", .Keyword "none", job_attributes,
    created_at, some created_at, none⟩
  let svc := { svc with job_id := id + 1, job_snapshot := svc.job_snapshot ++ [(id, job0)] }
  let resp := IppRequestResponse.new_response version .SuccessfulOk req_id
  let resp := add_basic_attributes resp
  let resp := push_group resp .JobAttributes (svc.lite_job_attributes_for head job0)
  ⟨.ok resp, svc, []⟩

/-- src/service/simple.rs send_document: the write-locked transition of the
looked-up job to Processing when it is not already there. -/
def send_document_start_job (job : JobInfo) (t0 : Nat) : JobInfo :=
  if job.state ≠ .Processing then
    { job with state := .Processing, state_message := "Processing", processing_at := some t0 }
  else job

/-- src/service/simple.rs send_document. -/
def SimpleIppService.send_document (svc : SimpleIppService) (env : ExecEnv)
    (head : ReqParts) (req : IppRequestResponse) : OpOutcome :=
  let req_id := req.header.request_id
  let version := req.header.version
  match svc.find_job req.attributes with
  | .error e => ⟨.error e, svc, []⟩
  | .ok (id, job) =>
    let job := send_document_start_job job env.t0
    let svc := { svc with job_snapshot := cache_update svc.job_snapshot id job }
    let job_attributes := job.attributes
    let attributes := req.attributes
    let tf := svc.take_document_format attributes
    match tf.1 with
    | .error e => ⟨.error e, svc, []⟩
    | .ok format =>
      let compression :=
        (take_ipp_attribute tf.2 .OperationAttributes "compression").1.bind IppValue.into_keyword
      match decommpress_payload req.payload compression with
      | .error e => ⟨.error e, svc, []⟩
      | .ok payload =>
        let doc : SimpleIppDocument := ⟨format, job_attributes, payload⟩
        let job1 := finish_job job env.sink_result env.t1
        let svc := { svc with job_snapshot := cache_update svc.job_snapshot id job1 }
        let resp := match env.sink_result with
          | .error e => build_error_response version req_id e
          | .ok _ => IppRequestResponse.new_response version .SuccessfulOk req_id
        let resp := add_basic_attributes resp
        let resp := push_group resp .JobAttributes (svc.lite_job_attributes_for head job1)
        ⟨.ok resp, svc, [doc]⟩

/-- src/service/simple.rs validate_job: successful-ok with the basic
attributes and no state change. -/
def SimpleIppService.validate_job (svc : SimpleIppService)
    (req : IppRequestResponse) : OpOutcome :=
  let resp := IppRequestResponse.new_response req.header.version .SuccessfulOk
    req.header.request_id
  ⟨.ok (add_basic_attributes resp), svc, []⟩

/-- src/service/simple.rs cancel_job: successful-ok with the basic
attributes; the job state is intentionally untouched. -/
def SimpleIppService.cancel_job (svc : SimpleIppService)
    (req : IppRequestResponse) : OpOutcome :=
  let resp := IppRequestResponse.new_response req.header.version .SuccessfulOk
    req.header.request_id
  ⟨.ok (add_basic_attributes resp), svc, []⟩

/-- src/service/simple.rs get_job_attributes. -/
def SimpleIppService.get_job_attributes (svc : SimpleIppService) (env : ExecEnv)
    (head : ReqParts) (req : IppRequestResponse) : OpOutcome :=
  match svc.find_job req.attributes with
  | .error e => ⟨.error e, svc, []⟩
  | .ok (_, job) =>
    let requested := get_requested_attributes req.attributes
    let resp := IppRequestResponse.new_response req.header.version .SuccessfulOk
      req.header.request_id
    let resp := add_basic_attributes resp
    let resp := push_group resp .JobAttributes
      (svc.job_attributes_for head (Int.ofNat env.t0) job requested)
    ⟨.ok resp, svc, []⟩

/-- src/service/simple.rs get_jobs: the cache walk.  count is the number of
groups already emitted; after emitting a group the loop stops as soon as
limit is supplied and count has reached it. -/
def get_jobs_loop (svc : SimpleIppService) (head : ReqParts) (uptime_secs : Int)
    (requested : List String) (which_jobs : WhichJob) (limit : Option Int) :
    List JobInfo → Int → List IppAttributeGroup
  | [], _ => []
  | job :: rest, count =>
    if which_jobs = WhichJob.from_state job.state then
      let g : IppAttributeGroup := ⟨.JobAttributes,
        extend_attrs [] (svc.job_attributes_for head uptime_secs job requested)⟩
      let count := count + 1
      if (match limit with | some x => decide (count ≥ x) | none => false) then [g]
      else g :: get_jobs_loop svc head uptime_secs requested which_jobs limit rest count
    else get_jobs_loop svc head uptime_secs requested which_jobs limit rest count

/-- src/service/simple.rs get_jobs. -/
def SimpleIppService.get_jobs (svc : SimpleIppService) (env : ExecEnv)
    (head : ReqParts) (req : IppRequestResponse) : OpOutcome :=
  let tl := take_ipp_attribute req.attributes .OperationAttributes "limit"
  let limit := tl.1.bind IppValue.as_integer
  let tw := take_ipp_attribute tl.2 .OperationAttributes "which-jobs"
  let which_jobs_kw := tw.1.bind IppValue.into_keyword
  let attributes := tw.2
  let which_jobs := match which_jobs_kw with
    | some s =>
      if s = "completed" then WhichJob.Completed
      else if s = "not-completed" then WhichJob.NotCompleted
      else WhichJob.NotCompleted
    | none => WhichJob.NotCompleted
  let requested := get_requested_attributes attributes
  let resp := IppRequestResponse.new_response req.header.version .SuccessfulOk
    req.header.request_id
  let resp := add_basic_attributes resp
  let groups := get_jobs_loop svc head (Int.ofNat env.t0) requested which_jobs limit
    (svc.job_snapshot.map (fun p => p.2)) 0
  let resp := { resp with attributes := ⟨resp.attributes.groups ++ groups⟩ }
  ⟨.ok resp, svc, []⟩

/-- src/service/simple.rs get_printer_attributes. -/
def SimpleIppService.get_printer_attributes (svc : SimpleIppService) (env : ExecEnv)
    (head : ReqParts) (req : IppRequestResponse) : OpOutcome :=
  let resp := IppRequestResponse.new_response req.header.version .SuccessfulOk
    req.header.request_id
  let resp := add_basic_attributes resp
  let requested := get_requested_attributes req.attributes
  let resp := push_group resp .PrinterAttributes
    (svc.printer_attributes head (Int.ofNat env.t0) requested)
  ⟨.ok resp, svc, []⟩

/-- src/service/common.rs operation_not_supported. -/
def operation_not_supported : AnyError :=
  .ipp .ServerErrorOperationNotSupported
    (StatusCode.toText .ServerErrorOperationNotSupported)

/-- src/service/simple.rs: SimpleIppService overrides version() to
IppVersion::v2_0(). -/
def SimpleIppService.version_word : Nat := IppVersion.v2_0

/-- src/service/common.rs check_version: the request's whole version word
must not exceed the server's (a u16 comparison, not a comparison of the
major bytes). -/
def check_version (req : IppRequestResponse) : Bool :=
  req.header.version ≤ SimpleIppService.version_word

/-- Outcome of handle_request: always exactly one response. -/
structure HandleOutcome where
  resp : IppRequestResponse
  svc : SimpleIppService
  sink_calls : List SimpleIppDocument

/-- src/service/common.rs handle_request, instantiated with the
SimpleIppService handler set: reject versions above the server's, route by
operation code (the trait's defaulted methods and the two catch-all arms all
yield operation-not-supported), and wrap any handler error through
build_error_response with the request's version and id. -/
def SimpleIppService.handle_request (svc : SimpleIppService) (env : ExecEnv)
    (head : ReqParts) (req : IppRequestResponse) : HandleOutcome :=
  let req_id := req.header.request_id
  if ¬ check_version req then
    ⟨build_error_response SimpleIppService.version_word req_id
      (.ipp .ServerErrorVersionNotSupported
        (StatusCode.toText .ServerErrorVersionNotSupported)), svc, []⟩
  else
    let version := req.header.version
    let r : OpOutcome := match Operation.from_u16 req.header.operation_or_status with
      | some .PrintJob => svc.print_job env head req
      | some .ValidateJob => svc.validate_job req
      | some .CreateJob => svc.create_job env head req
      | some .SendDocument => svc.send_document env head req
      | some .CancelJob => svc.cancel_job req
      | some .GetJobAttributes => svc.get_job_attributes env head req
      | some .GetJobs => svc.get_jobs env head req
      | some .GetPrinterAttributes => svc.get_printer_attributes env head req
      | some _ => ⟨.error operation_not_supported, svc, []⟩
      | none => ⟨.error operation_not_supported, svc, []⟩
    match r.result with
    | .ok resp => ⟨resp, r.svc, r.sink_calls⟩
    | .error e => ⟨build_error_response version req_id e, r.svc, r.sink_calls⟩

/-- http_body: one frame of an HTTP body.  into_data() succeeds on data
frames and fails on trailer frames (which poll_read silently skips). -/
inductive Frame where
  | data (bytes : List Nat)
  | trailers
deriving DecidableEq

/-- src/body_reader.rs BodyReader: the underlying body (remaining frames, in
arrival order; an exhausted list is end-of-stream) and the partially drained
chunk retained between reads. -/
structure BodyReaderState where
  body : List Frame
  chunk : Option (List Nat)
deriving DecidableEq

/-- src/body_reader.rs BodyReader::new. -/
def BodyReaderState.new (body : List Frame) : BodyReaderState := ⟨body, none⟩

/-- The inner loop of poll_read once no chunk is retained: poll frames until
a data frame arrives (trailer frames are skipped), copy
min(data.remaining, buf.len) bytes out and retain the rest; an exhausted
body returns Ok 0.  Pending and inner errors are resolved by the underlying
body and are outside this model, which feeds the reader a fully determined
frame list. -/
def poll_read_loop (blen : Nat) : List Frame → Nat × BodyReaderState
  | [] => (0, ⟨[], none⟩)
  | .trailers :: rest => poll_read_loop blen rest
  | .data d :: rest =>
    let len := min d.length blen
    let remainder := d.drop len
    (len, ⟨rest, if remainder.isEmpty then none else some remainder⟩)

/-- src/body_reader.rs BodyReader::poll_read (the Ready paths): serve from
the retained chunk first, otherwise poll the body. -/
def poll_read (st : BodyReaderState) (blen : Nat) : Nat × BodyReaderState :=
  match st.chunk with
  | some d =>
    let len := min d.length blen
    let remainder := d.drop len
    (len, { st with chunk := if remainder.isEmpty then none else some remainder })
  | none => poll_read_loop blen st.body

/-- A tiny model of the HTTP surface the two front ends inspect. -/
structure HttpRequest where
  method : String
  path : String
  content_type : Option String
deriving DecidableEq

structure HttpResponse where
  status : Nat
  headers : List (String × String)
  body_text : Option String
deriving DecidableEq

/-- src/handler/http.rs handle_ipp_via_http: every non-POST method is
rejected with 405 and an Allow header, a POST whose Content-Type is not
application/ipp with 415; otherwise the body is parsed, dispatched and the
IPP response returned with status 200 under Content-Type application/ipp.
Parsing and dispatching are supplied as the already computed IPP response
(parse errors propagate as the error case). -/
def handle_ipp_via_http (req : HttpRequest)
    (dispatched : Except String IppRequestResponse) : Except String HttpResponse :=
  if ¬ req.method = "POST" then
    .ok ⟨405, [("Allow", "POST")], some "405 Method Not Allowed"⟩
  else if ¬ req.content_type = some "application/ipp" then
    .ok ⟨415, [], some "415 Unsupported Media Type"⟩
  else
    match dispatched with
    | .error e => .error e
    | .ok _ => .ok ⟨200, [("Content-Type", "application/ipp")], none⟩

/-- src/server.rs IppServer::handle: a GET of the root path is answered with
the banner, any other GET with 404; every non-GET request (whatever its
method or Content-Type) is fed to the IPP parse/dispatch pipeline and
answered 200 under Content-Type application/ipp. -/
def ipp_server_handle (req : HttpRequest)
    (dispatched : Except String IppRequestResponse) : Except String HttpResponse :=
  if req.method = "GET" then
    if req.path = "/" then .ok ⟨200, [], some "IPP server running..."⟩
    else .ok ⟨404, [], some "404 Not Found"⟩
  else
    match dispatched with
    | .error e => .error e
    | .ok _ => .ok ⟨200, [("Content-Type", "application/ipp")], none⟩

/-- An attribute sequence has this attribute inside a group with this tag. -/
def has_attr (r : IppAttributes) (tag : DelimiterTag) (a : IppAttribute) : Prop :=
  ∃ g ∈ r.groups, g.tag = tag ∧ a ∈ g.attributes

theorem build_error_response_eq (version req_id : Nat) (e : AnyError) :
    build_error_response version req_id e =
      ⟨⟨version, e.code.toU16, req_id⟩,
        ⟨[⟨.OperationAttributes,
          [⟨"attributes-charset", .Charset "utf-8"⟩,
           ⟨"attributes-natural-language", .NaturalLanguage "en"⟩,
           ⟨"status-message", .TextWithoutLanguage e.msg⟩]⟩]⟩,
        .bytes []⟩ := rfl

/-- C3: every error response the dispatcher builds from a failed operation
carries the failure's status code and request id, and its
operation-attributes group holds attributes-charset utf-8,
attributes-natural-language en, and status-message with the error's
message. -/
theorem C3_error_response_shape (version req_id : Nat) (e : AnyError) :
    (build_error_response version req_id e).header.operation_or_status = e.code.toU16 ∧
    (build_error_response version req_id e).header.request_id = req_id ∧
    has_attr (build_error_response version req_id e).attributes .OperationAttributes
      ⟨"attributes-charset", .Charset "utf-8"⟩ ∧
    has_attr (build_error_response version req_id e).attributes .OperationAttributes
      ⟨"attributes-natural-language", .NaturalLanguage "en"⟩ ∧
    has_attr (build_error_response version req_id e).attributes .OperationAttributes
      ⟨"status-message", .TextWithoutLanguage e.msg⟩ := by
  rw [build_error_response_eq]
  refine ⟨rfl, rfl, ?_, ?_, ?_⟩ <;>
    exact ⟨_, List.mem_singleton.mpr rfl, rfl, by simp⟩

/-- C10: poll_read with a non-empty buffer serves min(remaining, buffer)
bytes from a retained chunk or from a newly arrived non-empty data frame,
retaining any undrained remainder; but an empty data frame makes it return
0 - the end-of-stream signal - while frames of the body remain. -/
theorem C10_poll_read_behaviour (st : BodyReaderState) (blen : Nat) (_hb : 0 < blen) :
    (∀ d, st.chunk = some d → d ≠ [] →
      (poll_read st blen).1 = min d.length blen ∧
      (poll_read st blen).2 =
        ⟨st.body, if (d.drop (min d.length blen)).isEmpty then none
                  else some (d.drop (min d.length blen))⟩) ∧
    (∀ d rest, st.chunk = none → st.body = .data d :: rest → d ≠ [] →
      (poll_read st blen).1 = min d.length blen ∧
      (poll_read st blen).2 =
        ⟨rest, if (d.drop (min d.length blen)).isEmpty then none
               else some (d.drop (min d.length blen))⟩) ∧
    (∀ rest, st.chunk = none → st.body = .data [] :: rest →
      poll_read st blen = (0, ⟨rest, none⟩)) := by
  refine ⟨?_, ?_, ?_⟩
  · intro d hc _
    simp [poll_read, hc]
  · intro d rest hc hb' _
    simp [poll_read, poll_read_loop, hc, hb']
  · intro rest hc hb'
    simp [poll_read, poll_read_loop, hc, hb']

theorem C10_poll_read_behaviour_witness :
    0 < 1 ∧
    (poll_read ⟨[Frame.data [9], Frame.trailers], some [7, 7]⟩ 1).1 = min 2 1 ∧
    poll_read ⟨Frame.data [] :: [Frame.data [9]], none⟩ 1 = (0, ⟨[Frame.data [9]], none⟩) := by
  refine ⟨by decide, ?_, ?_⟩
  · exact ((C10_poll_read_behaviour ⟨[Frame.data [9], Frame.trailers], some [7, 7]⟩ 1
      (by decide)).1 [7, 7] rfl (by decide)).1
  · exact (C10_poll_read_behaviour ⟨Frame.data [] :: [Frame.data [9]], none⟩ 1
      (by decide)).2.2 [Frame.data [9]] rfl rfl

instance {α β : Type} [DecidableEq α] [DecidableEq β] : DecidableEq (Except α β)
  | .ok a, .ok b => if h : a = b then .isTrue (by rw [h]) else .isFalse (by simp [h])
  | .ok _, .error _ => .isFalse (by simp)
  | .error _, .ok _ => .isFalse (by simp)
  | .error a, .error b => if h : a = b then .isTrue (by rw [h]) else .isFalse (by simp [h])

/-- C7 counterexample: in handle_ipp_via_http (the front end of
src/handler/http.rs) a GET of the root path is answered 405 Method Not
Allowed, not 200 with the running banner as the claim states. -/
theorem C7_counterexample_get_root :
    handle_ipp_via_http ⟨"GET", "/", none⟩ (.error "unused") =
      .ok ⟨405, [("Allow", "POST")], some "405 Method Not Allowed"⟩ ∧
    ¬ handle_ipp_via_http ⟨"GET", "/", none⟩ (.error "unused") =
      .ok ⟨200, [], some "IPP server running..."⟩ := by
  decide

/-- C7 amended: the claimed behaviour is split over the two front ends.
handle_ipp_via_http answers every non-POST request (GET included) with 405
and an Allow POST header, a POST of another Content-Type with 415 and a
valid POST with 200 under application/ipp; IppServer::handle answers a GET
of the root with the banner, any other GET with 404, and forwards every
non-GET request (any method, any Content-Type) to the IPP pipeline with a
200 application/ipp answer. -/
theorem C7_front_end_split (req : HttpRequest) (d : Except String IppRequestResponse) :
    (¬ req.method = "POST" →
      handle_ipp_via_http req d = .ok ⟨405, [("Allow", "POST")], some "405 Method Not Allowed"⟩) ∧
    (req.method = "POST" → ¬ req.content_type = some "application/ipp" →
      handle_ipp_via_http req d = .ok ⟨415, [], some "415 Unsupported Media Type"⟩) ∧
    (req.method = "POST" → req.content_type = some "application/ipp" →
      ∀ resp, d = .ok resp →
        handle_ipp_via_http req d = .ok ⟨200, [("Content-Type", "application/ipp")], none⟩) ∧
    (req.method = "GET" → req.path = "/" →
      ipp_server_handle req d = .ok ⟨200, [], some "IPP server running..."⟩) ∧
    (req.method = "GET" → ¬ req.path = "/" →
      ipp_server_handle req d = .ok ⟨404, [], some "404 Not Found"⟩) ∧
    (¬ req.method = "GET" → ∀ resp, d = .ok resp →
      ipp_server_handle req d = .ok ⟨200, [("Content-Type", "application/ipp")], none⟩) := by
  refine ⟨?_, ?_, ?_, ?_, ?_, ?_⟩
  · intro h; simp [handle_ipp_via_http, h]
  · intro h1 h2; simp [handle_ipp_via_http, h1, h2]
  · intro h1 h2 resp hd; simp [handle_ipp_via_http, h1, h2, hd]
  · intro h1 h2; simp [ipp_server_handle, h1, h2]
  · intro h1 h2; simp [ipp_server_handle, h1, h2]
  · intro h1 resp hd; simp [ipp_server_handle, h1, hd]

theorem C7_front_end_split_witness :
    handle_ipp_via_http ⟨"PUT", "/x", none⟩ (.error "unused") =
      .ok ⟨405, [("Allow", "POST")], some "405 Method Not Allowed"⟩ ∧
    ipp_server_handle ⟨"PUT", "/x", none⟩
        (.ok (IppRequestResponse.new_response IppVersion.v2_0 .SuccessfulOk 1)) =
      .ok ⟨200, [("Content-Type", "application/ipp")], none⟩ := by
  constructor
  · exact (C7_front_end_split ⟨"PUT", "/x", none⟩ (.error "unused")).1 (by decide)
  · exact (C7_front_end_split ⟨"PUT", "/x", none⟩
      (.ok (IppRequestResponse.new_response IppVersion.v2_0 .SuccessfulOk 1))).2.2.2.2.2
      (by decide) _ rfl

theorem get_attr_filter {l : List IppAttribute} {name name1 : String}
    (h : ¬ name = name1) :
    get_attr (l.filter (fun x => ¬ x.name = name1)) name = get_attr l name := by
  have h' : ¬ name1 = name := fun hx => h hx.symm
  induction l with
  | nil => rfl
  | cons a t ih =>
    by_cases ha : a.name = name1
    · simp [get_attr, List.filter_cons, List.find?_cons, ha, h, h'] at ih ⊢
      exact ih
    · by_cases hx : a.name = name
      · simp [get_attr, List.filter_cons, List.find?_cons, ha, hx, h, h']
      · simp [get_attr, List.filter_cons, List.find?_cons, ha, hx, h, h'] at ih ⊢
        exact ih

theorem take_go_fst (tag : DelimiterTag) (name : String) :
    ∀ gs : List IppAttributeGroup,
      (take_ipp_attribute_go tag name gs).1 =
        gs.findSome? (fun g =>
          if g.tag = tag then (get_attr g.attributes name).map (fun a => a.value) else none)
  | [] => rfl
  | g :: rest => by
    have ih := take_go_fst tag name rest
    by_cases h : g.tag = tag
    · rcases hf : get_attr g.attributes name with _ | a
      · simp only [get_attr] at hf
        simp [take_ipp_attribute_go, remove_attr, h, hf, List.findSome?_cons, get_attr, ih]
      · simp only [get_attr] at hf
        simp [take_ipp_attribute_go, remove_attr, h, hf, List.findSome?_cons, get_attr]
    · simp [take_ipp_attribute_go, h, List.findSome?_cons, ih]

theorem take_fst_eq_get (r : IppAttributes) (tag : DelimiterTag) (name : String) :
    (take_ipp_attribute r tag name).1 = get_ipp_attribute r tag name := by
  simp [take_ipp_attribute, get_ipp_attribute, take_go_fst]

theorem take_go_preserves (tag1 : DelimiterTag) (name1 : String) (tag : DelimiterTag)
    (name : String) (h : ¬ name = name1) :
    ∀ gs : List IppAttributeGroup,
      get_ipp_attribute ⟨(take_ipp_attribute_go tag1 name1 gs).2⟩ tag name =
        get_ipp_attribute ⟨gs⟩ tag name
  | [] => rfl
  | g :: rest => by
    have ih := take_go_preserves tag1 name1 tag name h rest
    by_cases h1 : g.tag = tag1
    · rcases hf : get_attr g.attributes name1 with _ | a
      · simp only [get_attr] at hf
        simp only [get_ipp_attribute] at ih
        simp [take_ipp_attribute_go, remove_attr, h1, hf, get_ipp_attribute,
          List.findSome?_cons, ih]
      · have hflt := @get_attr_filter g.attributes name name1 h
        simp only [get_attr] at hf
        simp [get_attr] at hflt
        by_cases h2 : g.tag = tag <;>
          simp [take_ipp_attribute_go, remove_attr, h1, hf, get_ipp_attribute,
            List.findSome?_cons, h2, get_attr, hflt]
    · simp only [get_ipp_attribute] at ih
      simp [take_ipp_attribute_go, h1, get_ipp_attribute, List.findSome?_cons, ih]

theorem take_preserves_get (r : IppAttributes) (tag1 : DelimiterTag) (name1 : String)
    (tag : DelimiterTag) (name : String) (h : ¬ name = name1) :
    get_ipp_attribute (take_ipp_attribute r tag1 name1).2 tag name =
      get_ipp_attribute r tag name := by
  simpa [take_ipp_attribute] using take_go_preserves tag1 name1 tag name h r.groups

theorem urn_preserves_get (r : IppAttributes) (tag : DelimiterTag) (name : String)
    (h : ¬ name = "requesting-user-name") :
    get_ipp_attribute (take_requesting_user_name r).2 tag name =
      get_ipp_attribute r tag name := by
  simpa [take_requesting_user_name] using
    take_preserves_get r .OperationAttributes "requesting-user-name" tag name h

theorem ja_take_preserves_get (info : PrinterInfo) (u : String) (r : IppAttributes)
    (tag : DelimiterTag) (name : String)
    (h1 : ¬ name = "media") (h2 : ¬ name = "orientation-requested")
    (h3 : ¬ name = "sides") (h4 : ¬ name = "print-color-mode")
    (h5 : ¬ name = "printer-resolution") :
    get_ipp_attribute (SimpleIppJobAttributes.take_ipp_attributes info u r).2 tag name =
      get_ipp_attribute r tag name := by
  simp only [SimpleIppJobAttributes.take_ipp_attributes]
  rw [take_preserves_get _ _ _ _ _ h5, take_preserves_get _ _ _ _ _ h4,
    take_preserves_get _ _ _ _ _ h3, take_preserves_get _ _ _ _ _ h2,
    take_preserves_get _ _ _ _ _ h1]

theorem tdf_snd (svc : SimpleIppService) (r : IppAttributes) :
    (svc.take_document_format r).2 =
      (take_ipp_attribute r .OperationAttributes "document-format").2 := by
  simp only [SimpleIppService.take_document_format]
  rcases h : (take_ipp_attribute r .OperationAttributes "document-format").1.bind
      IppValue.into_mime_media_type with _ | x
  · simp [h]
  · by_cases hx : x ∈ svc.info.document_format_supported <;> simp [h, hx]

theorem tdf_preserves_get {svc : SimpleIppService} {r : IppAttributes}
    {tag : DelimiterTag} {name : String} (h : ¬ name = "document-format") :
    get_ipp_attribute (svc.take_document_format r).2 tag name =
      get_ipp_attribute r tag name := by
  rw [tdf_snd]
  exact take_preserves_get _ _ _ _ _ h

theorem tdf_fst_of_bind_none {svc : SimpleIppService} {r : IppAttributes}
    (h : (get_ipp_attribute r .OperationAttributes "document-format").bind
      IppValue.into_mime_media_type = none) :
    (svc.take_document_format r).1 = .ok none := by
  simp only [SimpleIppService.take_document_format]
  rw [take_fst_eq_get, h]

/-- C6: payload wrapping is the identity for absent or none compression, a
streaming gzip-decode wrapper for gzip, and fails with
client-error-compression-not-supported for anything else; in print_job such
a failure happens before handle_document, so the sink is never invoked
(empty call list) and the error is the operation's result. -/
theorem C6_compression_handling (payload : IppPayload) (c : String)
    (svc : SimpleIppService) (env : ExecEnv) (head : ReqParts)
    (req : IppRequestResponse)
    (hc : get_ipp_attribute req.attributes .OperationAttributes "compression" =
      some (.Keyword c))
    (hf : (get_ipp_attribute req.attributes .OperationAttributes
      "document-format").bind IppValue.into_mime_media_type = none)
    (hc1 : ¬ c = "none") (hc2 : ¬ c = "gzip") :
    decommpress_payload payload none = .ok payload ∧
    decommpress_payload payload (some "none") = .ok payload ∧
    decommpress_payload payload (some "gzip") = .ok (.gzip_decoder payload) ∧
    decommpress_payload payload (some c) = .error (.ipp .ClientErrorCompressionNotSupported
      (StatusCode.toText .ClientErrorCompressionNotSupported)) ∧
    (svc.print_job env head req).result = .error (.ipp .ClientErrorCompressionNotSupported
      (StatusCode.toText .ClientErrorCompressionNotSupported)) ∧
    (svc.print_job env head req).sink_calls = [] := by
  have hA2 := hf
  rw [← urn_preserves_get req.attributes .OperationAttributes "document-format"
    (by decide)] at hA2
  rw [← ja_take_preserves_get svc.info
    (take_requesting_user_name req.attributes).1
    (take_requesting_user_name req.attributes).2
    .OperationAttributes "document-format"
    (by decide) (by decide) (by decide) (by decide) (by decide)] at hA2
  have hcomp := hc
  rw [← urn_preserves_get req.attributes .OperationAttributes "compression"
    (by decide)] at hcomp
  rw [← ja_take_preserves_get svc.info
    (take_requesting_user_name req.attributes).1
    (take_requesting_user_name req.attributes).2
    .OperationAttributes "compression"
    (by decide) (by decide) (by decide) (by decide) (by decide)] at hcomp
  refine ⟨rfl, rfl, rfl, by simp [decommpress_payload, hc1, hc2], ?_⟩
  simp only [SimpleIppService.print_job]
  rw [tdf_fst_of_bind_none hA2]
  rw [take_fst_eq_get]
  rw [tdf_preserves_get (by decide)]
  rw [hcomp]
  simp [decommpress_payload, IppValue.into_keyword, hc1, hc2]

theorem C6_compression_handling_witness :
    ((SimpleIppService.new PrinterInfo.defaults).print_job ⟨.ok (), 0, 0⟩ ⟨none⟩
      ⟨⟨0x0200, 2, 7⟩, ⟨[⟨.OperationAttributes, [⟨"compression", .Keyword "deflate"⟩]⟩]⟩,
        .bytes [1]⟩).result =
      .error (.ipp .ClientErrorCompressionNotSupported
        (StatusCode.toText .ClientErrorCompressionNotSupported)) ∧
    ((SimpleIppService.new PrinterInfo.defaults).print_job ⟨.ok (), 0, 0⟩ ⟨none⟩
      ⟨⟨0x0200, 2, 7⟩, ⟨[⟨.OperationAttributes, [⟨"compression", .Keyword "deflate"⟩]⟩]⟩,
        .bytes [1]⟩).sink_calls = [] := by
  have h := C6_compression_handling (IppPayload.bytes []) "deflate"
    (SimpleIppService.new PrinterInfo.defaults) ⟨.ok (), 0, 0⟩ ⟨none⟩
    ⟨⟨0x0200, 2, 7⟩, ⟨[⟨.OperationAttributes, [⟨"compression", .Keyword "deflate"⟩]⟩]⟩,
      .bytes [1]⟩
    (by decide) (by decide) (by decide) (by decide)
  exact ⟨h.2.2.2.2.1, h.2.2.2.2.2⟩

theorem new_response_header (v : Nat) (s : StatusCode) (i : Nat) :
    (IppRequestResponse.new_response v s i).header = ⟨v, s.toU16, i⟩ := rfl

theorem add_basic_attributes_header (r : IppRequestResponse) :
    (add_basic_attributes r).header = r.header := rfl

theorem push_group_header (r : IppRequestResponse) (t : DelimiterTag)
    (l : List IppAttribute) : (push_group r t l).header = r.header := rfl

theorem build_error_response_header (v : Nat) (i : Nat) (e : AnyError) :
    (build_error_response v i e).header = ⟨v, e.code.toU16, i⟩ := rfl

theorem print_job_cases {svc : SimpleIppService} {env : ExecEnv} {head : ReqParts}
    {req : IppRequestResponse} :
    (∀ r, (svc.print_job env head req).result = .ok r →
      r.header.request_id = req.header.request_id ∧
      (r.header.operation_or_status = StatusCode.SuccessfulOk.toU16 ∨
        ∃ e, env.sink_result = .error e ∧
          r.header.operation_or_status = e.code.toU16)) ∧
    (∀ e, (svc.print_job env head req).result = .error e →
      e.code = .ClientErrorDocumentFormatNotSupported ∨
        e.code = .ClientErrorCompressionNotSupported) := by
  constructor
  · intro r h
    simp only [SimpleIppService.print_job] at h
    split at h
    · simp at h
    · split at h
      · simp at h
      · simp only [Except.ok.injEq] at h
        subst h
        rcases env.sink_result with e | u
        · exact ⟨rfl, Or.inr ⟨e, rfl, rfl⟩⟩
        · exact ⟨rfl, Or.inl rfl⟩
  · intro e h
    simp only [SimpleIppService.print_job] at h
    split at h
    · rename_i e1 heq
      simp only [Except.error.injEq] at h
      subst h
      revert heq
      simp only [SimpleIppService.take_document_format]
      rcases (take_ipp_attribute _ .OperationAttributes "document-format").1.bind
          IppValue.into_mime_media_type with _ | x
      · intro hx; simp at hx
      · by_cases hm : x ∈ svc.info.document_format_supported
        · intro hx; simp [hm] at hx
        · intro hx
          simp [hm] at hx
          rw [← hx]
          exact Or.inl rfl
    · split at h
      · rename_i e1 heq
        simp only [Except.error.injEq] at h
        subst h
        revert heq
        simp only [decommpress_payload]
        rcases (take_ipp_attribute _ .OperationAttributes "compression").1.bind
            IppValue.into_keyword with _ | s
        · intro hx; simp at hx
        · by_cases h1 : s = "none"
          · intro hx; simp [h1] at hx
          · by_cases h2 : s = "gzip"
            · intro hx; simp [h1, h2] at hx
            · intro hx
              simp [h1, h2] at hx
              rw [← hx]
              exact Or.inr rfl
      · simp at h

theorem find_job_error {svc : SimpleIppService} {r : IppAttributes} {e : AnyError}
    (h : svc.find_job r = .error e) :
    e = .ipp .ClientErrorNotFound (StatusCode.toText .ClientErrorNotFound) := by
  simp only [SimpleIppService.find_job] at h
  split at h
  · simp at h
  · simp only [Except.error.injEq] at h
    exact h.symm

theorem send_document_cases {svc : SimpleIppService} {env : ExecEnv} {head : ReqParts}
    {req : IppRequestResponse} :
    (∀ r, (svc.send_document env head req).result = .ok r →
      r.header.request_id = req.header.request_id ∧
      (r.header.operation_or_status = StatusCode.SuccessfulOk.toU16 ∨
        ∃ e, env.sink_result = .error e ∧
          r.header.operation_or_status = e.code.toU16)) ∧
    (∀ e, (svc.send_document env head req).result = .error e →
      e.code = .ClientErrorNotFound ∨
        e.code = .ClientErrorDocumentFormatNotSupported ∨
        e.code = .ClientErrorCompressionNotSupported) := by
  constructor
  · intro r h
    simp only [SimpleIppService.send_document] at h
    split at h
    · simp at h
    · split at h
      · simp at h
      · split at h
        · simp at h
        · simp only [Except.ok.injEq] at h
          subst h
          rcases env.sink_result with e | u
          · exact ⟨rfl, Or.inr ⟨e, rfl, rfl⟩⟩
          · exact ⟨rfl, Or.inl rfl⟩
  · intro e h
    simp only [SimpleIppService.send_document] at h
    split at h
    · rename_i e1 heq
      simp only [Except.error.injEq] at h
      subst h
      rw [find_job_error heq]
      exact Or.inl rfl
    · split at h
      · rename_i e1 heq
        simp only [Except.error.injEq] at h
        subst h
        revert heq
        simp only [SimpleIppService.take_document_format]
        rcases (take_ipp_attribute _ .OperationAttributes "document-format").1.bind
            IppValue.into_mime_media_type with _ | x
        · intro hx; simp at hx
        · by_cases hm : x ∈ svc.info.document_format_supported
          · intro hx; simp [hm] at hx
          · intro hx
            simp [hm] at hx
            rw [← hx]
            exact Or.inr (Or.inl rfl)
      · split at h
        · rename_i e1 heq
          simp only [Except.error.injEq] at h
          subst h
          revert heq
          simp only [decommpress_payload]
          rcases (take_ipp_attribute _ .OperationAttributes "compression").1.bind
              IppValue.into_keyword with _ | s
          · intro hx; simp at hx
          · by_cases h1 : s = "none"
            · intro hx; simp [h1] at hx
            · by_cases h2 : s = "gzip"
              · intro hx; simp [h1, h2] at hx
              · intro hx
                simp [h1, h2] at hx
                rw [← hx]
                exact Or.inr (Or.inr rfl)
        · simp at h

theorem validate_job_cases {svc : SimpleIppService} {req : IppRequestResponse} :
    (∀ r, (svc.validate_job req).result = .ok r →
      r.header.request_id = req.header.request_id ∧
      r.header.operation_or_status = StatusCode.SuccessfulOk.toU16) ∧
    (∀ e, (svc.validate_job req).result = .error e → False) := by
  constructor
  · intro r h
    simp only [SimpleIppService.validate_job, Except.ok.injEq] at h
    subst h
    exact ⟨rfl, rfl⟩
  · intro e h
    simp [SimpleIppService.validate_job] at h

theorem cancel_job_cases {svc : SimpleIppService} {req : IppRequestResponse} :
    (∀ r, (svc.cancel_job req).result = .ok r →
      r.header.request_id = req.header.request_id ∧
      r.header.operation_or_status = StatusCode.SuccessfulOk.toU16) ∧
    (∀ e, (svc.cancel_job req).result = .error e → False) := by
  constructor
  · intro r h
    simp only [SimpleIppService.cancel_job, Except.ok.injEq] at h
    subst h
    exact ⟨rfl, rfl⟩
  · intro e h
    simp [SimpleIppService.cancel_job] at h

theorem create_job_cases {svc : SimpleIppService} {env : ExecEnv} {head : ReqParts}
    {req : IppRequestResponse} :
    (∀ r, (svc.create_job env head req).result = .ok r →
      r.header.request_id = req.header.request_id ∧
      r.header.operation_or_status = StatusCode.SuccessfulOk.toU16) ∧
    (∀ e, (svc.create_job env head req).result = .error e → False) := by
  constructor
  · intro r h
    simp only [SimpleIppService.create_job, Except.ok.injEq] at h
    subst h
    exact ⟨rfl, rfl⟩
  · intro e h
    simp [SimpleIppService.create_job] at h

theorem get_job_attributes_cases {svc : SimpleIppService} {env : ExecEnv}
    {head : ReqParts} {req : IppRequestResponse} :
    (∀ r, (svc.get_job_attributes env head req).result = .ok r →
      r.header.request_id = req.header.request_id ∧
      r.header.operation_or_status = StatusCode.SuccessfulOk.toU16) ∧
    (∀ e, (svc.get_job_attributes env head req).result = .error e →
      e.code = .ClientErrorNotFound) := by
  constructor
  · intro r h
    simp only [SimpleIppService.get_job_attributes] at h
    split at h
    · simp at h
    · simp only [Except.ok.injEq] at h
      subst h
      exact ⟨rfl, rfl⟩
  · intro e h
    simp only [SimpleIppService.get_job_attributes] at h
    split at h
    · rename_i e1 heq
      simp only [Except.error.injEq] at h
      subst h
      rw [find_job_error heq]
      rfl
    · simp at h

theorem get_jobs_cases {svc : SimpleIppService} {env : ExecEnv} {head : ReqParts}
    {req : IppRequestResponse} :
    (∀ r, (svc.get_jobs env head req).result = .ok r →
      r.header.request_id = req.header.request_id ∧
      r.header.operation_or_status = StatusCode.SuccessfulOk.toU16) ∧
    (∀ e, (svc.get_jobs env head req).result = .error e → False) := by
  constructor
  · intro r h
    simp only [SimpleIppService.get_jobs, Except.ok.injEq] at h
    subst h
    exact ⟨rfl, rfl⟩
  · intro e h
    simp [SimpleIppService.get_jobs] at h

theorem get_printer_attributes_cases {svc : SimpleIppService} {env : ExecEnv}
    {head : ReqParts} {req : IppRequestResponse} :
    (∀ r, (svc.get_printer_attributes env head req).result = .ok r →
      r.header.request_id = req.header.request_id ∧
      r.header.operation_or_status = StatusCode.SuccessfulOk.toU16) ∧
    (∀ e, (svc.get_printer_attributes env head req).result = .error e → False) := by
  constructor
  · intro r h
    simp only [SimpleIppService.get_printer_attributes, Except.ok.injEq] at h
    subst h
    exact ⟨rfl, rfl⟩
  · intro e h
    simp [SimpleIppService.get_printer_attributes] at h

/-- C2: for every well-formed IPP request - any operation code, known or
unknown, and any handler outcome including errors - handle_request yields
exactly one response (it is a total function into HandleOutcome, so no panic
path exists) and that response's request id equals the request's. -/
theorem C2_response_request_id (svc : SimpleIppService) (env : ExecEnv)
    (head : ReqParts) (req : IppRequestResponse) :
    (svc.handle_request env head req).resp.header.request_id =
      req.header.request_id := by
  simp only [SimpleIppService.handle_request]
  by_cases hv : check_version req
  · simp only [hv, not_true, if_false, Bool.not_eq_true]
    rcases hop : Operation.from_u16 req.header.operation_or_status with _ | op
    · simp only [hop]; rfl
    · cases op
      · simp only [hop]
        rcases hr : (svc.print_job env head req).result with e | r2
        · simp only [hr]; rfl
        · simp only [hr]; exact (print_job_cases.1 r2 hr).1
      · simp only [hop]; rfl
      · simp only [hop]
        rcases hr : (svc.validate_job req).result with e | r2
        · simp only [hr]; rfl
        · simp only [hr]; exact (validate_job_cases.1 r2 hr).1
      · simp only [hop]
        rcases hr : (svc.create_job env head req).result with e | r2
        · simp only [hr]; rfl
        · simp only [hr]; exact (create_job_cases.1 r2 hr).1
      · simp only [hop]
        rcases hr : (svc.send_document env head req).result with e | r2
        · simp only [hr]; rfl
        · simp only [hr]; exact (send_document_cases.1 r2 hr).1
      · simp only [hop]; rfl
      · simp only [hop]
        rcases hr : (svc.cancel_job req).result with e | r2
        · simp only [hr]; rfl
        · simp only [hr]; exact (cancel_job_cases.1 r2 hr).1
      · simp only [hop]
        rcases hr : (svc.get_job_attributes env head req).result with e | r2
        · simp only [hr]; rfl
        · simp only [hr]; exact (get_job_attributes_cases.1 r2 hr).1
      · simp only [hop]
        rcases hr : (svc.get_jobs env head req).result with e | r2
        · simp only [hr]; rfl
        · simp only [hr]; exact (get_jobs_cases.1 r2 hr).1
      · simp only [hop]
        rcases hr : (svc.get_printer_attributes env head req).result with e | r2
        · simp only [hr]; rfl
        · simp only [hr]; exact (get_printer_attributes_cases.1 r2 hr).1
      · simp only [hop]; rfl
      · simp only [hop]; rfl
      · simp only [hop]; rfl
      · simp only [hop]; rfl
      · simp only [hop]; rfl
      · simp only [hop]; rfl
  · simp only [hv, if_true, Bool.not_eq_true]
    rfl

theorem status_toU16_eq_vns {c : StatusCode} :
    c.toU16 = StatusCode.ServerErrorVersionNotSupported.toU16 ↔
      c = .ServerErrorVersionNotSupported := by
  cases c <;> simp [StatusCode.toU16]

/-- C4 counterexample: the request version word 0x0201 (major 2, minor 1)
has major equal to the server's major 2, yet handle_request answers
server-error-version-not-supported - the code compares the whole u16
version word, not the major byte, so the claim's "dispatched regardless of
its minor version" fails. -/
theorem C4_minor_version_counterexample :
    0x0201 / 0x100 ≤ 0x0200 / 0x100 ∧
    ((SimpleIppService.new PrinterInfo.defaults).handle_request ⟨.ok (), 0, 0⟩ ⟨none⟩
      ⟨⟨0x0201, 0x000B, 9⟩, ⟨[]⟩, .bytes []⟩).resp.header.operation_or_status =
      StatusCode.ServerErrorVersionNotSupported.toU16 := by
  constructor
  · decide
  · rfl

/-- C4 amended: handle_request returns server-error-version-not-supported
exactly when the request's whole version word (major byte, minor byte, as a
u16) exceeds the server's 0x0200; a request is dispatched only when its
(major, minor) pair is lexicographically at most (2, 0).  The sink premise
excludes the degenerate sink that itself fabricates a version-not-supported
IppError. -/
theorem C4_version_gate (svc : SimpleIppService) (env : ExecEnv) (head : ReqParts)
    (req : IppRequestResponse)
    (hsink : ∀ e, env.sink_result = Except.error e →
      ¬ e.code = StatusCode.ServerErrorVersionNotSupported) :
    ((svc.handle_request env head req).resp.header.operation_or_status =
      StatusCode.ServerErrorVersionNotSupported.toU16) ↔
      IppVersion.v2_0 < req.header.version := by
  by_cases hv : check_version req
  · have hle : req.header.version ≤ IppVersion.v2_0 := by
      simpa [check_version, SimpleIppService.version_word] using hv
    refine iff_of_false ?_ (not_lt.mpr hle)
    simp only [SimpleIppService.handle_request, hv, not_true, if_false, Bool.not_eq_true]
    rcases hop : Operation.from_u16 req.header.operation_or_status with _ | op
    · simp only [hop]
      simp [build_error_response_header, operation_not_supported, AnyError.code,
        StatusCode.toU16]
    · have handle_ok : ∀ (r2 : IppRequestResponse),
          (r2.header.operation_or_status = StatusCode.SuccessfulOk.toU16 ∨
            ∃ e, env.sink_result = .error e ∧
              r2.header.operation_or_status = e.code.toU16) →
          ¬ r2.header.operation_or_status =
            StatusCode.ServerErrorVersionNotSupported.toU16 := by
        intro r2 hst hcontra
        rcases hst with hok | ⟨e, hse, hstat⟩
        · rw [hok] at hcontra; exact absurd hcontra (by decide)
        · rw [hstat] at hcontra
          exact hsink e hse (status_toU16_eq_vns.mp hcontra)
      cases op
      · simp only [hop]
        rcases hr : (svc.print_job env head req).result with e | r2
        · simp only [hr]
          intro hcontra
          have hc := status_toU16_eq_vns.mp hcontra
          rcases print_job_cases.2 e hr with h | h <;> rw [h] at hc <;>
            exact absurd hc (by decide)
        · simp only [hr]
          exact handle_ok r2 (print_job_cases.1 r2 hr).2
      · simp only [hop]
        simp [build_error_response_header, operation_not_supported, AnyError.code,
          StatusCode.toU16]
      · simp only [hop]
        rcases hr : (svc.validate_job req).result with e | r2
        · exact absurd hr (fun hx => validate_job_cases.2 e hx)
        · simp only [hr]
          exact handle_ok r2 (Or.inl (validate_job_cases.1 r2 hr).2)
      · simp only [hop]
        rcases hr : (svc.create_job env head req).result with e | r2
        · exact absurd hr (fun hx => create_job_cases.2 e hx)
        · simp only [hr]
          exact handle_ok r2 (Or.inl (create_job_cases.1 r2 hr).2)
      · simp only [hop]
        rcases hr : (svc.send_document env head req).result with e | r2
        · simp only [hr]
          intro hcontra
          have hc := status_toU16_eq_vns.mp hcontra
          rcases send_document_cases.2 e hr with h | h | h <;> rw [h] at hc <;>
            exact absurd hc (by decide)
        · simp only [hr]
          exact handle_ok r2 (send_document_cases.1 r2 hr).2
      · simp only [hop]
        simp [build_error_response_header, operation_not_supported, AnyError.code,
          StatusCode.toU16]
      · simp only [hop]
        rcases hr : (svc.cancel_job req).result with e | r2
        · exact absurd hr (fun hx => cancel_job_cases.2 e hx)
        · simp only [hr]
          exact handle_ok r2 (Or.inl (cancel_job_cases.1 r2 hr).2)
      · simp only [hop]
        rcases hr : (svc.get_job_attributes env head req).result with e | r2
        · simp only [hr]
          intro hcontra
          have hc := status_toU16_eq_vns.mp hcontra
          rw [get_job_attributes_cases.2 e hr] at hc
          exact absurd hc (by decide)
        · simp only [hr]
          exact handle_ok r2 (Or.inl (get_job_attributes_cases.1 r2 hr).2)
      · simp only [hop]
        rcases hr : (svc.get_jobs env head req).result with e | r2
        · exact absurd hr (fun hx => get_jobs_cases.2 e hx)
        · simp only [hr]
          exact handle_ok r2 (Or.inl (get_jobs_cases.1 r2 hr).2)
      · simp only [hop]
        rcases hr : (svc.get_printer_attributes env head req).result with e | r2
        · exact absurd hr (fun hx => get_printer_attributes_cases.2 e hx)
        · simp only [hr]
          exact handle_ok r2 (Or.inl (get_printer_attributes_cases.1 r2 hr).2)
      · simp only [hop]
        simp [build_error_response_header, operation_not_supported, AnyError.code,
          StatusCode.toU16]
      · simp only [hop]
        simp [build_error_response_header, operation_not_supported, AnyError.code,
          StatusCode.toU16]
      · simp only [hop]
        simp [build_error_response_header, operation_not_supported, AnyError.code,
          StatusCode.toU16]
      · simp only [hop]
        simp [build_error_response_header, operation_not_supported, AnyError.code,
          StatusCode.toU16]
      · simp only [hop]
        simp [build_error_response_header, operation_not_supported, AnyError.code,
          StatusCode.toU16]
      · simp only [hop]
        simp [build_error_response_header, operation_not_supported, AnyError.code,
          StatusCode.toU16]
  · have hgt : IppVersion.v2_0 < req.header.version := by
      have := hv
      simp [check_version, SimpleIppService.version_word] at this
      simpa [IppVersion.v2_0] using this
    refine iff_of_true ?_ hgt
    simp only [SimpleIppService.handle_request, hv, if_true, Bool.not_eq_true]
    rfl

theorem C4_version_gate_witness :
    ((SimpleIppService.new PrinterInfo.defaults).handle_request ⟨.ok (), 0, 0⟩ ⟨none⟩
      ⟨⟨0x0300, 0x000B, 3⟩, ⟨[]⟩, .bytes []⟩).resp.header.operation_or_status =
      StatusCode.ServerErrorVersionNotSupported.toU16 :=
  (C4_version_gate (SimpleIppService.new PrinterInfo.defaults) ⟨.ok (), 0, 0⟩ ⟨none⟩
    ⟨⟨0x0300, 0x000B, 3⟩, ⟨[]⟩, .bytes []⟩
    (fun _ h => by cases h)).mpr (by decide)

/-- C1: print_job allocates a job whose initial literal is Processing with
message Processing, reasons Keyword none and processing_at equal to
created_at; on a fresh server the allocated job has id 1000; once the sink
ran, the job is Completed with message Completed on success and Aborted with
message Aborted: err on failure, with completed_at set either way; and a
successful response carries job-id, job-state and job-state-message inside a
JobAttributes group. -/
theorem C1_print_job_lifecycle (info : PrinterInfo) (head : ReqParts)
    (req : IppRequestResponse) (env : ExecEnv) :
    (∀ (id : Int) (ja : SimpleIppJobAttributes) (t : Nat),
      (print_job_initial_job id ja t).state = .Processing ∧
      (print_job_initial_job id ja t).state_message = "Processing" ∧
      (print_job_initial_job id ja t).state_reasons = .Keyword "none" ∧
      (print_job_initial_job id ja t).created_at = t ∧
      (print_job_initial_job id ja t).processing_at =
        some (print_job_initial_job id ja t).created_at) ∧
    (∃ j, cache_get ((SimpleIppService.new info).print_job env head req).svc.job_snapshot
      1000 = some j) ∧
    (((SimpleIppService.new info).print_job env head req).sink_calls ≠ [] →
      ∃ j, cache_get ((SimpleIppService.new info).print_job env head req).svc.job_snapshot
          1000 = some j ∧
        (env.sink_result = .ok () → j.state = .Completed ∧
          j.state_message = "Completed" ∧ j.completed_at = some env.t1) ∧
        (∀ e, env.sink_result = .error e → j.state = .Aborted ∧
          j.state_message = "Aborted: " ++ e.display ∧ j.completed_at = some env.t1)) ∧
    (∀ r, ((SimpleIppService.new info).print_job env head req).result = .ok r →
      env.sink_result = .ok () →
      r.header.operation_or_status = StatusCode.SuccessfulOk.toU16 ∧
      ∃ g ∈ r.attributes.groups, g.tag = .JobAttributes ∧
        ⟨"job-id", .Integer 1000⟩ ∈ g.attributes ∧
        ⟨"job-state", .Enum JobState.Completed.toI32⟩ ∈ g.attributes ∧
        ⟨"job-state-message", .TextWithoutLanguage "Completed"⟩ ∈ g.attributes) := by
  refine ⟨fun id ja t => ⟨rfl, rfl, rfl, rfl, rfl⟩, ?_, ?_, ?_⟩
  · simp only [SimpleIppService.print_job]
    split
    · exact ⟨_, rfl⟩
    · split
      · exact ⟨_, rfl⟩
      · exact ⟨_, rfl⟩
  · rcases henv : env.sink_result with e | ⟨⟩
    · simp only [SimpleIppService.print_job, henv]
      split
      · intro h; exact absurd rfl h
      · split
        · intro h; exact absurd rfl h
        · intro _
          refine ⟨_, rfl, ?_, ?_⟩
          · intro h; cases h
          · intro e' he'
            cases he'
            exact ⟨rfl, rfl, rfl⟩
    · simp only [SimpleIppService.print_job, henv]
      split
      · intro h; exact absurd rfl h
      · split
        · intro h; exact absurd rfl h
        · intro _
          refine ⟨_, rfl, ?_, ?_⟩
          · intro _; exact ⟨rfl, rfl, rfl⟩
          · intro e' he'; cases he'
  · rcases henv : env.sink_result with e | ⟨⟩
    · intro r _ hok; cases hok
    · intro r hr _
      simp only [SimpleIppService.print_job, henv] at hr
      split at hr
      · simp at hr
      · split at hr
        · simp at hr
        · simp only [Except.ok.injEq] at hr
          subst hr
          refine ⟨rfl, _, List.mem_append_right _ (List.mem_singleton_self _), rfl,
            ?_, ?_, ?_⟩
          · exact List.Mem.tail _ (List.Mem.head _)
          · exact List.Mem.tail _ (List.Mem.tail _ (List.Mem.head _))
          · exact List.Mem.tail _ (List.Mem.tail _ (List.Mem.tail _ (List.Mem.head _)))

theorem C1_print_job_lifecycle_witness :
    ∃ j, cache_get (((SimpleIppService.new PrinterInfo.defaults).print_job
      ⟨.ok (), 5, 9⟩ ⟨none⟩ ⟨⟨0x0200, 2, 4⟩, ⟨[]⟩, .bytes [37]⟩).svc.job_snapshot) 1000 =
        some j ∧
      j.state = .Completed ∧ j.state_message = "Completed" ∧ j.completed_at = some 9 := by
  have h := (C1_print_job_lifecycle PrinterInfo.defaults ⟨none⟩
    ⟨⟨0x0200, 2, 4⟩, ⟨[]⟩, .bytes [37]⟩ ⟨.ok (), 5, 9⟩).2.2.1 (by decide)
  obtain ⟨j, hj, hok, _⟩ := h
  exact ⟨j, hj, hok rfl⟩

theorem cache_get_update {l : List (Int × JobInfo)} {id : Int} {j0 : JobInfo}
    (j : JobInfo) (h : cache_get l id = some j0) :
    cache_get (cache_update l id j) id = some j := by
  induction l with
  | nil => simp [cache_get] at h
  | cons p t ih =>
    by_cases hp : p.1 = id
    · simp [cache_get, cache_update, List.find?_cons, hp]
    · simp only [cache_get, cache_update, List.map_cons, if_neg hp] at h ⊢
      rw [List.find?_cons_of_neg _ (by simp [hp])] at h ⊢
      exact ih h

theorem find_job_none {svc : SimpleIppService} {r : IppAttributes}
    (hmiss : ∀ id, (get_ipp_attribute r .OperationAttributes "job-id").bind
      IppValue.as_integer = some id → cache_get svc.job_snapshot id = none) :
    svc.find_job r = .error (.ipp .ClientErrorNotFound
      (StatusCode.toText .ClientErrorNotFound)) := by
  simp only [SimpleIppService.find_job]
  rcases hid : (get_ipp_attribute r .OperationAttributes "job-id").bind
      IppValue.as_integer with _ | id
  · rfl
  · simp [hmiss id hid]

theorem find_job_ok {svc : SimpleIppService} {r : IppAttributes} {id : Int}
    {job : JobInfo} (h : svc.find_job r = .ok (id, job)) :
    cache_get svc.job_snapshot id = some job ∧
    (get_ipp_attribute r .OperationAttributes "job-id").bind IppValue.as_integer =
      some id := by
  simp only [SimpleIppService.find_job] at h
  split at h
  · rename_i j hj
    simp only [Except.ok.injEq] at h
    subst h
    split at hj
    · rename_i id' hid
      simp only [Option.map_eq_some'] at hj
      obtain ⟨j0, hc, hj0⟩ := hj
      injection hj0 with h1 h2
      subst h1; subst h2
      exact ⟨hc, hid⟩
    · simp at hj
  · simp at h

/-- C5: Send-Document answers client-error-not-found without touching the
sink when job-id does not name a cached job; otherwise a job that is not yet
Processing transitions to Processing with processing_at set to the current
uptime, and the document is handled as in Print-Job: once the sink ran the
cache holds the finished job, Completed on sink success and Aborted on sink
failure, with completed_at set. -/
theorem C5_send_document_behaviour (svc : SimpleIppService) (env : ExecEnv)
    (head : ReqParts) (req : IppRequestResponse) :
    ((∀ id, (get_ipp_attribute req.attributes .OperationAttributes "job-id").bind
        IppValue.as_integer = some id → cache_get svc.job_snapshot id = none) →
      (svc.send_document env head req).result = .error (.ipp .ClientErrorNotFound
        (StatusCode.toText .ClientErrorNotFound)) ∧
      (svc.send_document env head req).sink_calls = []) ∧
    (∀ id job, svc.find_job req.attributes = .ok (id, job) →
      (¬ job.state = .Processing →
        (send_document_start_job job env.t0).state = .Processing ∧
        (send_document_start_job job env.t0).state_message = "Processing" ∧
        (send_document_start_job job env.t0).processing_at = some env.t0) ∧
      ((svc.send_document env head req).sink_calls ≠ [] →
        cache_get (svc.send_document env head req).svc.job_snapshot id =
          some (finish_job (send_document_start_job job env.t0) env.sink_result env.t1)) ∧
      (env.sink_result = .ok () →
        (finish_job (send_document_start_job job env.t0) env.sink_result env.t1).state =
          .Completed ∧
        (finish_job (send_document_start_job job env.t0) env.sink_result
          env.t1).state_message = "Completed" ∧
        (finish_job (send_document_start_job job env.t0) env.sink_result
          env.t1).completed_at = some env.t1) ∧
      (∀ e, env.sink_result = .error e →
        (finish_job (send_document_start_job job env.t0) env.sink_result env.t1).state =
          .Aborted ∧
        (finish_job (send_document_start_job job env.t0) env.sink_result
          env.t1).state_message = "Aborted: " ++ e.display ∧
        (finish_job (send_document_start_job job env.t0) env.sink_result
          env.t1).completed_at = some env.t1)) := by
  constructor
  · intro hmiss
    simp only [SimpleIppService.send_document]
    rw [find_job_none hmiss]
    exact ⟨rfl, rfl⟩
  · intro id job h
    refine ⟨?_, ?_, ?_, ?_⟩
    · intro hstate
      simp [send_document_start_job, hstate]
    · simp only [SimpleIppService.send_document]
      rw [h]
      dsimp only
      split
      · intro hc; exact absurd rfl hc
      · split
        · intro hc; exact absurd rfl hc
        · intro _
          exact cache_get_update _ (cache_get_update _ (find_job_ok h).1)
    · intro hok
      rw [hok]
      exact ⟨rfl, rfl, rfl⟩
    · intro e he
      rw [he]
      exact ⟨rfl, rfl, rfl⟩

theorem C5_send_document_behaviour_witness :
    ((⟨1000, [(1005, ⟨1005, .Pending, "Pending", .Keyword "none",
        ⟨"bob", "iso_a4_210x297mm", none, "one-sided", "monochrome", none⟩, 1, some 1,
        none⟩)], "defaulthost:631", "/", PrinterInfo.defaults⟩ :
      SimpleIppService).send_document ⟨.ok (), 3, 8⟩ ⟨none⟩
        ⟨⟨0x0200, 6, 11⟩, ⟨[]⟩, .bytes []⟩).result =
      .error (.ipp .ClientErrorNotFound (StatusCode.toText .ClientErrorNotFound)) ∧
    (send_document_start_job ⟨1005, .Pending, "Pending", .Keyword "none",
        ⟨"bob", "iso_a4_210x297mm", none, "one-sided", "monochrome", none⟩, 1, some 1,
        none⟩ 3).state = .Processing ∧
    (send_document_start_job ⟨1005, .Pending, "Pending", .Keyword "none",
        ⟨"bob", "iso_a4_210x297mm", none, "one-sided", "monochrome", none⟩, 1, some 1,
        none⟩ 3).processing_at = some 3 ∧
    cache_get ((⟨1000, [(1005, ⟨1005, .Pending, "Pending", .Keyword "none",
        ⟨"bob", "iso_a4_210x297mm", none, "one-sided", "monochrome", none⟩, 1, some 1,
        none⟩)], "defaulthost:631", "/", PrinterInfo.defaults⟩ :
      SimpleIppService).send_document ⟨.ok (), 3, 8⟩ ⟨none⟩
        ⟨⟨0x0200, 6, 12⟩, ⟨[⟨.OperationAttributes, [⟨"job-id", .Integer 1005⟩]⟩]⟩,
          .bytes [1]⟩).svc.job_snapshot 1005 =
      some (finish_job (send_document_start_job ⟨1005, .Pending, "Pending",
        .Keyword "none", ⟨"bob", "iso_a4_210x297mm", none, "one-sided", "monochrome",
        none⟩, 1, some 1, none⟩ 3) (.ok ()) 8) ∧
    (finish_job (send_document_start_job ⟨1005, .Pending, "Pending", .Keyword "none",
        ⟨"bob", "iso_a4_210x297mm", none, "one-sided", "monochrome", none⟩, 1, some 1,
        none⟩ 3) (.ok ()) 8).state = .Completed := by
  have ha := (C5_send_document_behaviour
    (⟨1000, [(1005, ⟨1005, .Pending, "Pending", .Keyword "none",
      ⟨"bob", "iso_a4_210x297mm", none, "one-sided", "monochrome", none⟩, 1, some 1,
      none⟩)], "defaulthost:631", "/", PrinterInfo.defaults⟩ : SimpleIppService)
    ⟨.ok (), 3, 8⟩ ⟨none⟩ ⟨⟨0x0200, 6, 11⟩, ⟨[]⟩, .bytes []⟩).1
    (fun id h => nomatch h)
  have hb := (C5_send_document_behaviour
    (⟨1000, [(1005, ⟨1005, .Pending, "Pending", .Keyword "none",
      ⟨"bob", "iso_a4_210x297mm", none, "one-sided", "monochrome", none⟩, 1, some 1,
      none⟩)], "defaulthost:631", "/", PrinterInfo.defaults⟩ : SimpleIppService)
    ⟨.ok (), 3, 8⟩ ⟨none⟩
    ⟨⟨0x0200, 6, 12⟩, ⟨[⟨.OperationAttributes, [⟨"job-id", .Integer 1005⟩]⟩]⟩,
      .bytes [1]⟩).2 1005
    ⟨1005, .Pending, "Pending", .Keyword "none",
      ⟨"bob", "iso_a4_210x297mm", none, "one-sided", "monochrome", none⟩, 1, some 1,
      none⟩ rfl
  refine ⟨ha.1, ?_, ?_, ?_, ?_⟩
  · exact (hb.1 (by decide)).1
  · exact (hb.1 (by decide)).2.2
  · exact hb.2.1 (by decide)
  · exact (hb.2.2.1 rfl).1

theorem emit_if_subset {c c' : Bool} {l : List IppAttribute}
    (h : c = true → c' = true) : emit_if c l ⊆ emit_if c' l := by
  cases c
  · intro a ha; simp [emit_if] at ha
  · rw [h rfl]; exact fun a ha => ha

theorem emit_opt_subset {c c' : Bool} {name : String} {v : Option IppValue}
    (h : c = true → c' = true) : emit_opt c name v ⊆ emit_opt c' name v := by
  cases c
  · intro a ha; simp [emit_opt] at ha
  · rw [h rfl]; exact fun a ha => ha

theorem append_subset_append {α : Type} {A B C D : List α}
    (h1 : A ⊆ C) (h2 : B ⊆ D) : A ++ B ⊆ C ++ D := by
  intro a ha
  rcases List.mem_append.mp ha with h | h
  · exact List.mem_append.mpr (Or.inl (h1 h))
  · exact List.mem_append.mpr (Or.inr (h2 h))

theorem ite_block_subset {c : Prop} [Decidable c] {A B : List IppAttribute}
    (h : A ⊆ B) : (if c then A else []) ⊆ (if c then B else []) := by
  split
  · exact h
  · exact fun a ha => ha

/-- Monotonicity of the requested-attributes filter: pointwise weaker guards
emit a subset of the attributes, every push being conditional on its
guard. -/
theorem printer_attributes_mono (svc : SimpleIppService) (head : ReqParts)
    (uptime_secs : Int) (F G : List String)
    (h : ∀ n : String, (F.contains "all" || F.contains n) = true →
      (G.contains "all" || G.contains n) = true) :
    svc.printer_attributes head uptime_secs F ⊆
      svc.printer_attributes head uptime_secs G := by
  simp only [SimpleIppService.printer_attributes]
  repeat' apply append_subset_append
  all_goals first
    | exact emit_if_subset (h _)
    | exact emit_opt_subset (h _)
    | exact ite_block_subset (emit_if_subset (h _))

/-- C8: an absent requested-attributes attribute is treated as the singleton
all, and the attribute set emitted for the filter consisting of all is a
superset of the set emitted for any filter F. -/
theorem C8_requested_all_superset (r : IppAttributes) (svc : SimpleIppService)
    (head : ReqParts) (uptime_secs : Int) (F : List String) :
    (get_ipp_attribute r .OperationAttributes "requested-attributes" = none →
      get_requested_attributes r = ["all"]) ∧
    ∀ a ∈ svc.printer_attributes head uptime_secs F,
      a ∈ svc.printer_attributes head uptime_secs ["all"] := by
  constructor
  · intro h; simp [get_requested_attributes, h]
  · exact fun a ha => printer_attributes_mono svc head uptime_secs F ["all"]
      (fun n _ => by rw [show (List.contains ["all"] "all") = true from rfl, Bool.true_or]) ha

theorem C8_requested_all_superset_witness :
    get_requested_attributes ⟨[]⟩ = ["all"] ∧
    (⟨"printer-name", .NameWithoutLanguage "IppServer"⟩ : IppAttribute) ∈
      (SimpleIppService.new PrinterInfo.defaults).printer_attributes ⟨none⟩ 0 ["all"] := by
  have h := C8_requested_all_superset ⟨[]⟩ (SimpleIppService.new PrinterInfo.defaults)
    ⟨none⟩ 0 ["printer-name"]
  exact ⟨h.1 rfl, h.2 _ (by decide)⟩

theorem get_jobs_loop_length (svc : SimpleIppService) (head : ReqParts)
    (uptime_secs : Int) (requested : List String) (which : WhichJob) (n : Int) :
    ∀ (jobs : List JobInfo) (count : Int),
      Int.ofNat (get_jobs_loop svc head uptime_secs requested which (some n)
        jobs count).length ≤ max (n - count) 1 := by
  intro jobs
  induction jobs with
  | nil =>
    intro count
    simp [get_jobs_loop]
  | cons j rest ih =>
    intro count
    simp only [get_jobs_loop]
    by_cases hw : which = WhichJob.from_state j.state
    · rw [if_pos hw]
      by_cases hl : count + 1 ≥ n
      · rw [if_pos (by simpa using hl)]
        simp
      · rw [if_neg (by simpa using hl)]
        have hih := ih (count + 1)
        have hmax : max (n - (count + 1)) 1 = n - (count + 1) :=
          max_eq_left (by omega)
        rw [hmax] at hih
        have hmax2 : max (n - count) 1 = n - count := max_eq_left (by omega)
        rw [hmax2]
        simp only [List.length_cons, Int.ofNat_eq_coe] at hih ⊢
        push_cast at hih ⊢
        omega
    · rw [if_neg hw]
      exact ih count

theorem get_jobs_loop_tags (svc : SimpleIppService) (head : ReqParts)
    (uptime_secs : Int) (requested : List String) (which : WhichJob)
    (limit : Option Int) :
    ∀ (jobs : List JobInfo) (count : Int),
      ∀ g ∈ get_jobs_loop svc head uptime_secs requested which limit jobs count,
        g.tag = .JobAttributes := by
  intro jobs
  induction jobs with
  | nil => intro count g hg; simp [get_jobs_loop] at hg
  | cons j rest ih =>
    intro count g hg
    simp only [get_jobs_loop] at hg
    by_cases hw : which = WhichJob.from_state j.state
    · rw [if_pos hw] at hg
      split at hg
      · rcases List.mem_singleton.mp hg with rfl
        rfl
      · rcases List.mem_cons.mp hg with rfl | hg'
        · rfl
        · exact ih (count + 1) g hg'
    · rw [if_neg hw] at hg
      exact ih count g hg

/-- C9 counterexample: a cache holding one not-completed job and a supplied
limit of 0 still yields one JobAttributes group, because the loop emits the
group before testing count against the limit - so "at most n groups for
every n including n = 0" fails at n = 0. -/
theorem C9_limit_zero_counterexample :
    (((⟨1001, [(1000, ⟨1000, .Pending, "Pending", .Keyword "none",
        ⟨"bob", "iso_a4_210x297mm", none, "one-sided", "monochrome", none⟩, 1, some 1,
        none⟩)], "defaulthost:631", "/", PrinterInfo.defaults⟩ :
      SimpleIppService).get_jobs ⟨.ok (), 0, 0⟩ ⟨none⟩
        ⟨⟨0x0200, 0x000A, 13⟩, ⟨[⟨.OperationAttributes, [⟨"limit", .Integer 0⟩]⟩]⟩,
          .bytes []⟩).result.toOption.map
      (fun r => (r.attributes.groups.filter
        (fun g => g.tag = DelimiterTag.JobAttributes)).length)) = some 1 ∧
    ¬ (1 : Nat) ≤ 0 := by
  constructor
  · rfl
  · decide

/-- C9 amended: get_jobs reads the optional limit and the which-jobs keyword
(defaulting to not-completed), emits one JobAttributes group per matching
cached job and stops once the count has reached the limit; since the count
is only tested after a group is emitted, a supplied limit n bounds the
number of emitted JobAttributes groups by max n 1 - at most n whenever
n is at least 1, while a limit of 0 (or below) still allows one group. -/
theorem C9_get_jobs_limit (svc : SimpleIppService) (env : ExecEnv) (head : ReqParts)
    (req : IppRequestResponse) (n : Int)
    (hlimit : (take_ipp_attribute req.attributes .OperationAttributes "limit").1.bind
      IppValue.as_integer = some n) :
    ∀ r, (svc.get_jobs env head req).result = .ok r →
      Int.ofNat ((r.attributes.groups.filter
        (fun g => g.tag = DelimiterTag.JobAttributes)).length) ≤ max n 1 := by
  intro r hr
  simp only [SimpleIppService.get_jobs] at hr
  rw [hlimit] at hr
  simp only [Except.ok.injEq] at hr
  subst hr
  rw [List.filter_append]
  have hbase : List.filter (fun g => decide (g.tag = DelimiterTag.JobAttributes))
      (add_basic_attributes (IppRequestResponse.new_response req.header.version
        .SuccessfulOk req.header.request_id)).attributes.groups = [] := rfl
  rw [hbase, List.nil_append]
  rw [List.filter_eq_self.mpr (fun g hg => by
    simp only [decide_eq_true_eq]
    exact get_jobs_loop_tags _ _ _ _ _ _ _ _ g hg)]
  have := get_jobs_loop_length svc head (Int.ofNat env.t0)
    (get_requested_attributes (take_ipp_attribute
      (take_ipp_attribute req.attributes .OperationAttributes "limit").2
      .OperationAttributes "which-jobs").2)
    (match (take_ipp_attribute (take_ipp_attribute req.attributes .OperationAttributes
        "limit").2 .OperationAttributes "which-jobs").1.bind IppValue.into_keyword with
      | some s =>
        if s = "completed" then WhichJob.Completed
        else if s = "not-completed" then WhichJob.NotCompleted
        else WhichJob.NotCompleted
      | none => WhichJob.NotCompleted)
    n (svc.job_snapshot.map (fun p => p.2)) 0
  simpa using this

theorem C9_get_jobs_limit_witness :
    Int.ofNat (((((⟨1002, [(1000, ⟨1000, .Pending, "Pending", .Keyword "none",
        ⟨"u", "iso_a4_210x297mm", none, "one-sided", "monochrome", none⟩, 0, none, none⟩),
      (1001, ⟨1001, .Pending, "Pending", .Keyword "none",
        ⟨"v", "iso_a4_210x297mm", none, "one-sided", "monochrome", none⟩, 0, none, none⟩)],
      "defaulthost:631", "/", PrinterInfo.defaults⟩ : SimpleIppService).get_jobs
        ⟨.ok (), 0, 0⟩ ⟨none⟩
        ⟨⟨0x0200, 0x000A, 14⟩, ⟨[⟨.OperationAttributes, [⟨"limit", .Integer 1⟩]⟩]⟩,
          .bytes []⟩).result.toOption.getD
      (IppRequestResponse.new_response 0 .SuccessfulOk 0)).attributes.groups.filter
        (fun g => g.tag = DelimiterTag.JobAttributes)).length) ≤ max 1 1 :=
  C9_get_jobs_limit (⟨1002, [(1000, ⟨1000, .Pending, "Pending", .Keyword "none",
        ⟨"u", "iso_a4_210x297mm", none, "one-sided", "monochrome", none⟩, 0, none, none⟩),
      (1001, ⟨1001, .Pending, "Pending", .Keyword "none",
        ⟨"v", "iso_a4_210x297mm", none, "one-sided", "monochrome", none⟩, 0, none, none⟩)],
      "defaulthost:631", "/", PrinterInfo.defaults⟩ : SimpleIppService)
    ⟨.ok (), 0, 0⟩ ⟨none⟩
    ⟨⟨0x0200, 0x000A, 14⟩, ⟨[⟨.OperationAttributes, [⟨"limit", .Integer 1⟩]⟩]⟩,
      .bytes []⟩ 1 rfl _ rfl
